import Mathlib

/-!
# Travel-Destination-DB: data-access layer and routes

A shallow embedding of `Node_Project/appService.js` (the connection wrapper
`withOracleDB` and the data-access functions built on it), of the routes of
`Node_Project/appController.js`, and of two handlers of
`Node_Project/public/scripts.js`.

Modelling conventions.

* The Oracle database is external to the repository.  Its tables are lists of
  rows without constraints; a statement that the real database would reject
  (constraint violation, bad bind value, unreachable server) is a statement
  that *fails*.  Which driver calls fail is decided by the environment: the
  session carries a list `faults`, and every driver call
  (`oracledb.getConnection`, `connection.execute`, `connection.close`) takes
  the next entry; `none` (or an exhausted list) means the call succeeds,
  `some err` means it throws `err`.
* Column values and bind values are non-NULL scalars (`Val`).
* An `async` function of the server is a function from the world to an outcome
  (resolved value or thrown error) and the next world; calls run one after
  another.  Console output is not part of the world.
* A handler of the client is the sequence of effects it causes, given what its
  `fetch` call comes to.
-/

namespace TravelDB

/-! ## Values -/

/-- A scalar column value or bind value (a JavaScript number or string). -/
inductive Val
  | num (n : Int)
  | str (s : String)
  deriving DecidableEq, Repr

/-- The JavaScript values the data-access functions resolve to. -/
inductive JSVal
  | undefined
  | bool (b : Bool)
  | num (n : Int)
  | str (s : String)
  | rows (rs : List (List Val))
  | result (metaData : List String) (rs : List (List Val))
  deriving DecidableEq, Repr

/-- JavaScript truthiness, as used by `if (x)` and `!x`. -/
def JSVal.truthy : JSVal → Bool
  | .undefined => false
  | .bool b => b
  | .num n => n != 0
  | .str s => s != ""
  | .rows _ => true
  | .result _ _ => true

/-- A scalar read out of a result row, as a JavaScript value. -/
def JSVal.ofVal : Val → JSVal
  | .num n => .num n
  | .str s => .str s

/-- Error values (what a rejected promise carries). -/
abbrev Err := String

/-! ## Tables -/

/-- Locations(province, city). -/
structure LocationRow where
  province : Val
  city : Val
  deriving DecidableEq, Repr

/-- TouristAttractions1(latitude, longitude, province, city). -/
structure TA1Row where
  latitude : Val
  longitude : Val
  province : Val
  city : Val
  deriving DecidableEq, Repr

/-- TouristAttractions2; `attractionID` is generated by the database. -/
structure TA2Row where
  attractionID : Nat
  attractionName : Val
  attractionDesc : Val
  category : Val
  openingHour : Val
  closingHour : Val
  latitude : Val
  longitude : Val
  deriving DecidableEq, Repr

/-- ExperienceOffered. -/
structure ExperienceRow where
  experienceID : Val
  experienceName : Val
  experienceDesc : Val
  company : Val
  price : Val
  attractionID : Val
  deriving DecidableEq, Repr

/-- DEMOTABLE(id, name). -/
structure DemoRow where
  id : Val
  name : Val
  deriving DecidableEq, Repr

/-- The database state. -/
structure DB where
  locations : List LocationRow
  touristAttractions1 : List TA1Row
  touristAttractions2 : List TA2Row
  experienceOffered : List ExperienceRow
  demotable : List DemoRow
  nextAttractionID : Nat
  deriving DecidableEq, Repr

/-! ## SQL statements of `appService.js` -/

/-- The statements handed to `connection.execute`, with their bind values in
the order of the bind array.  `selectExperience` is the dynamically built
statement of `projectExperienceAttribute`: it carries the SQL text and the bind
array as they are passed to `connection.execute`. -/
inductive Stmt
  | selectAttractions (province city : Val)
  | insertTouristAttractions2
      (attractionName attractionDesc category openingHour closingHour latitude longitude : Val)
  | selectTouristAttractions1 (latitude longitude province city : Val)
  | insertTouristAttractions1 (latitude longitude province city : Val)
  | selectLocations (province city : Val)
  | insertLocations (province city : Val)
  | selectDemotable
  | insertDemotable (id name : Val)
  | updateDemotable (newName oldName : Val)
  | countDemotable
  | selectExperience (sqlText : String) (binds : List Val)
  deriving DecidableEq, Repr

/-- What `connection.execute` resolves to.  `rowsAffected` is `undefined`
(`none`) for queries; `rows` is only read for queries. -/
structure Result where
  metaData : List String
  rows : List (List Val)
  rowsAffected : Option Nat
  deriving DecidableEq, Repr

/-- Rows of
`SELECT attractionID, attractionName FROM TouristAttractions1 T1, TouristAttractions2 T2
 WHERE T1.latitude = T2.latitude AND T1.longitude = T2.longitude
 AND T1.province = :province AND T1.city = :city`, as a nested-loop join. -/
def selectAttractionsRows (db : DB) (province city : Val) : List (List Val) :=
  db.touristAttractions1.flatMap fun t1 =>
    (db.touristAttractions2.filter fun t2 =>
      decide (t1.latitude = t2.latitude ∧ t1.longitude = t2.longitude ∧
        t1.province = province ∧ t1.city = city)).map
      fun t2 => [Val.num t2.attractionID, t2.attractionName]

/-- Rows of `SELECT * FROM TouristAttractions1 WHERE latitude = :latitude AND
longitude = :longitude AND province = :province AND city = :city`. -/
def selectTouristAttractions1Rows (db : DB) (latitude longitude province city : Val) :
    List (List Val) :=
  (db.touristAttractions1.filter fun t =>
    decide (t.latitude = latitude ∧ t.longitude = longitude ∧
      t.province = province ∧ t.city = city)).map
    fun t => [t.latitude, t.longitude, t.province, t.city]

/-- Rows of `SELECT * FROM Locations WHERE province = :province AND city = :city`. -/
def selectLocationsRows (db : DB) (province city : Val) : List (List Val) :=
  (db.locations.filter fun l => decide (l.province = province ∧ l.city = city)).map
    fun l => [l.province, l.city]

/-- Lower-casing of the ASCII letters of an identifier (unquoted identifiers are
case-insensitive). -/
def lowerName (name : String) : String :=
  String.mk (name.data.map Char.toLower)

/-- Upper-casing of the ASCII letters of an identifier, as column names are reported
in `metaData`. -/
def upperName (name : String) : String :=
  String.mk (name.data.map Char.toUpper)

/-- The columns of ExperienceOffered by name. -/
def experienceColumn (name : String) : Option (ExperienceRow → Val) :=
  match lowerName name with
  | "experienceid" => some (·.experienceID)
  | "experiencename" => some (·.experienceName)
  | "experiencedesc" => some (·.experienceDesc)
  | "company" => some (·.company)
  | "price" => some (·.price)
  | "attractionid" => some (·.attractionID)
  | _ => none

/-- The pieces of a text between the occurrences of `", "`; `acc` holds the current
piece, reversed. -/
def splitCommaSpace : List Char → List Char → List String
  | [], acc => [String.mk acc.reverse]
  | ',' :: ' ' :: rest, acc => String.mk acc.reverse :: splitCommaSpace rest []
  | c :: rest, acc => splitCommaSpace rest (c :: acc)

/-- The select list read as column names.  Only `", "`-separated lists of
ExperienceOffered column names are given a meaning; any other text is a statement
the database rejects. -/
def parseSelectList (selectList : String) : Option (List (String × (ExperienceRow → Val))) :=
  if selectList = "" then none
  else (splitCommaSpace selectList.data []).mapM fun n => (experienceColumn n).map fun f => (n, f)

/-- The fixed text of the projection query before the select list. -/
def experienceQueryHead : String :=
  "\n        SELECT "

/-- The fixed text of the projection query after the select list. -/
def experienceQueryTail : String :=
  " \n        FROM ExperienceOffered\n        WHERE attractionID = :id\n        "

/-- The select list of a projection query: what stands between the fixed head and
the fixed tail of its text.  A text of another shape is given no meaning. -/
def selectListOf (sqlText : String) : Option String :=
  let body := sqlText.data.drop experienceQueryHead.data.length
  if experienceQueryHead.data.isPrefixOf sqlText.data && experienceQueryTail.data.isSuffixOf body then
    some (String.mk (body.take (body.length - experienceQueryTail.data.length)))
  else none

/-- The effect of one statement on the database, and its result. -/
def execStmt (stmt : Stmt) (db : DB) : Except Err (Result × DB) :=
  match stmt with
  | .selectAttractions province city =>
    .ok (⟨["ATTRACTIONID", "ATTRACTIONNAME"], selectAttractionsRows db province city, none⟩, db)
  | .insertTouristAttractions2 n d cat o c lat long =>
    .ok (⟨[], [], some 1⟩,
      { db with
        touristAttractions2 := db.touristAttractions2 ++ [⟨db.nextAttractionID, n, d, cat, o, c, lat, long⟩]
        nextAttractionID := db.nextAttractionID + 1 })
  | .selectTouristAttractions1 lat long province city =>
    .ok (⟨["LATITUDE", "LONGITUDE", "PROVINCE", "CITY"],
      selectTouristAttractions1Rows db lat long province city, none⟩, db)
  | .insertTouristAttractions1 lat long province city =>
    .ok (⟨[], [], some 1⟩,
      { db with touristAttractions1 := db.touristAttractions1 ++ [⟨lat, long, province, city⟩] })
  | .selectLocations province city =>
    .ok (⟨["PROVINCE", "CITY"], selectLocationsRows db province city, none⟩, db)
  | .insertLocations province city =>
    .ok (⟨[], [], some 1⟩, { db with locations := db.locations ++ [⟨province, city⟩] })
  | .selectDemotable =>
    .ok (⟨["ID", "NAME"], db.demotable.map fun r => [r.id, r.name], none⟩, db)
  | .insertDemotable id name =>
    .ok (⟨[], [], some 1⟩, { db with demotable := db.demotable ++ [⟨id, name⟩] })
  | .updateDemotable newName oldName =>
    .ok (⟨[], [], some (db.demotable.filter fun r => decide (r.name = oldName)).length⟩,
      { db with demotable := db.demotable.map fun r =>
          if r.name = oldName then { r with name := newName } else r })
  | .countDemotable =>
    .ok (⟨["COUNT(*)"], [[Val.num db.demotable.length]], none⟩, db)
  | .selectExperience sqlText binds =>
    match binds with
    | [id] =>
      match (selectListOf sqlText).bind parseSelectList with
      | none => .error "ORA-00904: invalid identifier"
      | some cols =>
        .ok (⟨cols.map fun c => upperName c.1,
          (db.experienceOffered.filter fun e => decide (e.attractionID = id)).map
            fun e => cols.map fun c => c.2 e, none⟩, db)
    | _ => .error "ORA-01008: not all variables bound"

/-! ## The driver: sessions, connections, faults -/

/-- What a unit of work can reach through `connection.execute`: the database,
the outcomes of the driver calls still to come, and the log of the statements
that were applied, each with the database state it was applied to. -/
structure Session where
  db : DB
  faults : List (Option Err)
  stmts : List (Stmt × DB)
  deriving DecidableEq, Repr

/-- A pooled connection handle. -/
structure Connection where
  id : Nat
  deriving DecidableEq, Repr

/-- Connection lifecycle events, recorded by `withOracleDB`. -/
inductive Life
  | acquireFailed
  | acquired (c : Connection)
  | invoked (c : Connection)
  | finished (c : Connection)
  | closeCalled (c : Connection)
  deriving DecidableEq, Repr

/-- The world an `async` function of the server runs in. -/
structure World where
  sess : Session
  nextConn : Nat
  life : List Life
  deriving DecidableEq, Repr

/-- A unit of work run on a connection: resolves or throws, and moves the session. -/
abbrev Action (α : Type) := Session → Except Err α × Session

/-- An `async` function of the server: resolves or rejects, and moves the world. -/
abbrev Task (α : Type) := World → Except Err α × World

/-- The outcome of the next driver call. -/
def popFault (s : Session) : Option Err × Session :=
  match s.faults with
  | [] => (none, s)
  | f :: fs => (f, { s with faults := fs })

/-- The call `connection.execute(sql, binds)`; inserts and updates are issued with
`autoCommit: true`, so an applied statement takes effect at once. -/
def Connection.execute (_c : Connection) (stmt : Stmt) : Action Result := fun s =>
  match popFault s with
  | (some err, s1) => (.error err, s1)
  | (none, s1) =>
    match execStmt stmt s1.db with
    | .error err => (.error err, s1)
    | .ok (res, db1) => (.ok res, { s1 with db := db1, stmts := s1.stmts ++ [(stmt, s1.db)] })

/-- The `finally` block of `withOracleDB`: `connection.close()`, whose failure is
logged and swallowed. -/
def closeQuietly (s : Session) : Session :=
  (popFault s).2

/-- The function `withOracleDB(action)`: acquire a connection, run the action, close the
connection whether the action returned or threw, and pass on the outcome. -/
def withOracleDB {α : Type} (action : Connection → Action α) : Task α := fun w =>
  match popFault w.sess with
  | (some err, s1) =>
    -- catch: console.error(err); throw err.  finally: `connection` is undefined
    (.error err, { w with sess := s1, life := w.life ++ [.acquireFailed] })
  | (none, s1) =>
    let c : Connection := ⟨w.nextConn⟩
    match action c s1 with
    | (r, s2) =>
      (r, { sess := closeQuietly s2,
            nextConn := w.nextConn + 1,
            life := w.life ++ [.acquired c, .invoked c, .finished c, .closeCalled c] })

/-- The promise method `.catch(handler)` with a handler that returns a value. -/
def Task.catch {α : Type} (t : Task α) (handler : Err → α) : Task α := fun w =>
  match t w with
  | (.ok v, w1) => (.ok v, w1)
  | (.error err, w1) => (.ok (handler err), w1)

/-- The expression `result.rowsAffected && result.rowsAffected > 0`. -/
def rowsAffectedFlag (result : Result) : JSVal :=
  match result.rowsAffected with
  | none => .undefined
  | some n => if n = 0 then .num 0 else .bool (decide (n > 0))

/-- A unit of work that executes one statement and maps its result. -/
def runStmt {α : Type} (stmt : Stmt) (f : Result → Except Err α) :
    Connection → Action α := fun connection s =>
  match connection.execute stmt s with
  | (.ok result, s1) => (f result, s1)
  | (.error err, s1) => (.error err, s1)

/-! ## Data-access functions of `appService.js` -/

/-- The function `testOracleConnection`. -/
def testOracleConnection : Task JSVal :=
  Task.catch (withOracleDB fun _ s => (.ok (.bool true), s)) fun _ => .bool false

/-- The function `getAttractions(province, city)`. -/
def getAttractions (province city : Val) : Task JSVal :=
  Task.catch
    (withOracleDB (runStmt (.selectAttractions province city) fun result => .ok (.rows result.rows)))
    fun _ => .rows []

/-- The function `checkTouristAttraction1(lat, long, province, city)`. -/
def checkTouristAttraction1 (lat long province city : Val) : Task JSVal :=
  Task.catch
    (withOracleDB (runStmt (.selectTouristAttractions1 lat long province city)
      fun result => .ok (.bool (decide (result.rows.length > 0)))))
    fun _ => .bool false

/-- The function `checkLocation(province, city)`. -/
def checkLocation (province city : Val) : Task JSVal :=
  Task.catch
    (withOracleDB (runStmt (.selectLocations province city)
      fun result => .ok (.bool (decide (result.rows.length > 0)))))
    fun _ => .bool false

/-- The function `addLocation(province, city)`. -/
def addLocation (province city : Val) : Task JSVal :=
  Task.catch
    (withOracleDB (runStmt (.insertLocations province city) fun result => .ok (rowsAffectedFlag result)))
    fun _ => .bool false

/-- The function `addTouristAttractions1(lat, long, province, city)`. -/
def addTouristAttractions1 (lat long province city : Val) : Task JSVal := fun w =>
  -- if (!(await checkLocation(province, city))) { await addLocation(province, city); }
  let ensured : Except Err Unit × World :=
    match checkLocation province city w with
    | (.error err, w1) => (.error err, w1)
    | (.ok found, w1) =>
      if !found.truthy then
        match addLocation province city w1 with
        | (.error err, w2) => (.error err, w2)
        | (.ok _, w2) => (.ok (), w2)
      else (.ok (), w1)
  match ensured with
  | (.error err, w2) => (.error err, w2)
  | (.ok _, w2) =>
    Task.catch
      (withOracleDB (runStmt (.insertTouristAttractions1 lat long province city)
        fun result => .ok (rowsAffectedFlag result)))
      (fun _ => .bool false) w2

/-- The function `addAttraction(name, description, open, close, lat, long, category, province, city)`. -/
def addAttraction (name description open_ close lat long category province city : Val) :
    Task JSVal := fun w =>
  -- if (!(await checkTouristAttraction1(...))) { await addTouristAttractions1(...); }
  let ensured : Except Err Unit × World :=
    match checkTouristAttraction1 lat long province city w with
    | (.error err, w1) => (.error err, w1)
    | (.ok found, w1) =>
      if !found.truthy then
        match addTouristAttractions1 lat long province city w1 with
        | (.error err, w2) => (.error err, w2)
        | (.ok _, w2) => (.ok (), w2)
      else (.ok (), w1)
  match ensured with
  | (.error err, w2) => (.error err, w2)
  | (.ok _, w2) =>
    Task.catch
      (withOracleDB (runStmt (.insertTouristAttractions2 name description category open_ close lat long)
        fun result => .ok (rowsAffectedFlag result)))
      (fun _ => .bool false) w2

/-- The function `fetchDemotableFromDb`. -/
def fetchDemotableFromDb : Task JSVal :=
  Task.catch
    (withOracleDB (runStmt .selectDemotable fun result => .ok (.rows result.rows)))
    fun _ => .rows []

/-- The function `insertDemotable(id, name)`. -/
def insertDemotable (id name : Val) : Task JSVal :=
  Task.catch
    (withOracleDB (runStmt (.insertDemotable id name) fun result => .ok (rowsAffectedFlag result)))
    fun _ => .bool false

/-- The function `updateNameDemotable(oldName, newName)`. -/
def updateNameDemotable (oldName newName : Val) : Task JSVal :=
  Task.catch
    (withOracleDB (runStmt (.updateDemotable newName oldName)
      fun result => .ok (rowsAffectedFlag result)))
    fun _ => .bool false

/-- The expression `result.rows[0][0]`; indexing `undefined` throws a TypeError. -/
def firstCell (result : Result) : Except Err JSVal :=
  match result.rows with
  | [] => .error "TypeError: Cannot read properties of undefined (reading '0')"
  | [] :: _ => .ok .undefined
  | (v :: _) :: _ => .ok (JSVal.ofVal v)

/-- The function `countDemotable`. -/
def countDemotable : Task JSVal :=
  Task.catch (withOracleDB (runStmt .countDemotable firstCell)) fun _ => .num (-1)

/-- One iteration of the loop of `projectExperienceAttribute` at index `i`:
append `toSelect[i]`, then `', '` unless `i` is the last index. -/
def selectorStep (toSelect : List String) (parsedSelectorString : String) (i : Nat) : String :=
  let s1 := parsedSelectorString ++ toSelect.getD i "undefined"
  if i < toSelect.length - 1 then s1 ++ ", " else s1

/-- The select list built by `for (i = 0; i < toSelect.length; i++)`, starting
from the empty string. -/
def parsedSelectorString (toSelect : List String) : String :=
  (List.range toSelect.length).foldl (selectorStep toSelect) ""

/-- The SQL text `query` and the bind array `[id]` that `projectExperienceAttribute`
hands to `connection.execute`. -/
def projectQuery (id : Val) (toSelect : List String) : String × List Val :=
  ("\n        SELECT " ++ parsedSelectorString toSelect ++
    " \n        FROM ExperienceOffered\n        WHERE attractionID = :id\n        ", [id])

/-- The function `projectExperienceAttribute(id, toSelect)`: it executes the text and
the bind array of `projectQuery`; there is no `.catch`, and the whole `result` object
is returned. -/
def projectExperienceAttribute (id : Val) (toSelect : List String) : Task JSVal :=
  withOracleDB
    (runStmt (.selectExperience (projectQuery id toSelect).1 (projectQuery id toSelect).2)
      fun result => .ok (.result result.metaData result.rows))

/-- The property names of `module.exports` of `appService.js`. -/
def moduleExports : List String :=
  ["testOracleConnection", "getAttractions", "addAttraction", "fetchDemotableFromDb",
   "insertDemotable", "updateNameDemotable", "countDemotable"]

/-! ## Routes of `appController.js` -/

/-- The body of a response. -/
inductive Body
  | text (s : String)
  | json (fields : List (String × JSVal))
  deriving DecidableEq, Repr

/-- A response sent with `res.send` or `res.json`, after an optional `res.status`. -/
structure Response where
  status : Nat
  body : Body
  deriving DecidableEq, Repr

/-- The call `appService.name(...)` from the controller: calling a property that
the module does not export throws a TypeError. -/
def callService {α : Type} (name : String) (f : Task α) : Task α := fun w =>
  if name ∈ moduleExports then f w
  else (.error ("TypeError: appService." ++ name ++ " is not a function"), w)

/-- A route handler: it rejects, or completes having sent a response or none. -/
abbrev Handler := Task (Option Response)

/-- The route `router.post('/get-attractions')`. -/
def getAttractionsRoute (province city : Val) : Handler := fun w =>
  match callService "getAttractions" (getAttractions province city) w with
  | (.error err, w1) => (.error err, w1)
  | (.ok tableContent, w1) => (.ok (some ⟨200, .json [("data", tableContent)]⟩), w1)

/-- The route `router.post('/add-attraction')`. -/
def addAttractionRoute (name description open_ close lat long category province city : Val) :
    Handler := fun w =>
  match callService "addAttraction"
      (addAttraction name description open_ close lat long category province city) w with
  | (.error err, w1) => (.error err, w1)
  | (.ok tableContent, w1) => (.ok (some ⟨200, .json [("data", tableContent)]⟩), w1)

/-- The route `router.post('/project-tables')`. -/
def projectTablesRoute (id : Val) (toSelect : List String) : Handler := fun w =>
  match callService "projectExperienceAttribute" (projectExperienceAttribute id toSelect) w with
  | (.error err, w1) => (.error err, w1)
  | (.ok projectedExperiences, w1) =>
    if projectedExperiences.truthy then
      (.ok (some ⟨200, .json [("projectedExperiences", projectedExperiences)]⟩), w1)
    else (.ok none, w1)

/-! ## Fault-free steps -/

/-- The database after a statement is applied (unchanged if it is rejected). -/
def execDB (stmt : Stmt) (db : DB) : DB :=
  match execStmt stmt db with
  | .ok (_, db1) => db1
  | .error _ => db

/-- The world after `withOracleDB` has run one statement with all three driver
calls (acquire, execute, close) succeeding. -/
def World.step (w : World) (stmt : Stmt) : World :=
  { sess := { db := execDB stmt w.sess.db, faults := w.sess.faults.drop 3,
              stmts := w.sess.stmts ++ [(stmt, w.sess.db)] },
    nextConn := w.nextConn + 1,
    life := w.life ++ [.acquired ⟨w.nextConn⟩, .invoked ⟨w.nextConn⟩,
      .finished ⟨w.nextConn⟩, .closeCalled ⟨w.nextConn⟩] }

/-! ## Example states -/

/-- A world over the database `db` in which the coming driver calls have the
outcomes `faults`. -/
def worldOf (db : DB) (faults : List (Option Err)) : World :=
  { sess := { db := db, faults := faults, stmts := [] }, nextConn := 0, life := [] }

/-- The empty database. -/
def dbEmpty : DB :=
  { locations := [], touristAttractions1 := [], touristAttractions2 := [],
    experienceOffered := [], demotable := [], nextAttractionID := 1 }

/-- A database with one location and one attraction in it. -/
def dbVancouver : DB :=
  { locations := [⟨.str "bc", .str "vancouver"⟩]
    touristAttractions1 := [⟨.num 49, .num (-123), .str "bc", .str "vancouver"⟩]
    touristAttractions2 := [⟨1, .str "science world", .str "dome", .str "museum", .str "10", .str "17",
      .num 49, .num (-123)⟩]
    experienceOffered := []
    demotable := []
    nextAttractionID := 2 }

/-- Driver outcomes for `addAttraction` on empty tables: the nine driver calls of
`checkTouristAttraction1`, `checkLocation` and `addLocation` succeed, and the fourth
`oracledb.getConnection()`, the one for the TouristAttractions1 insert, rejects. -/
def faultsCoordinateInsertFails : List (Option Err) :=
  List.replicate 9 none ++ [some "ORA-12541"]

/-! ## Routes of the DEMOTABLE functions -/

/-- The comparison `text >= 0` for a string: the string is trimmed and read as a
decimal integer with an optional sign, the empty string as 0; a string that is no
such number converts to `NaN`, which compares false.  Other numeric spellings
(fractions, exponents, hexadecimal, `Infinity`) are outside the model, whose numbers
are integers. -/
def textGeZero (text : String) : Bool :=
  let trimmed := text.trim
  if trimmed = "" then true
  else
    let negative := trimmed.startsWith "-"
    let digits := if negative || trimmed.startsWith "+" then trimmed.drop 1 else trimmed
    if digits ≠ "" && digits.all Char.isDigit then
      !negative || digits.all fun c => c == '0'
    else false

/-- The comparison `x >= 0` of JavaScript: the operand is converted to a number and
`NaN` compares false. -/
def JSVal.geZero : JSVal → Bool
  | .undefined => false
  | .bool _ => true
  | .num n => decide (n ≥ 0)
  | .str s => textGeZero s
  | .rows [] => true
  | .rows [[]] => true
  | .rows [[.num n]] => decide (n ≥ 0)
  | .rows [[.str s]] => textGeZero s
  | .rows _ => false
  | .result _ _ => false

/-- The route `router.post("/insert-demotable")`. -/
def insertDemotableRoute (id name : Val) : Handler := fun w =>
  match callService "insertDemotable" (insertDemotable id name) w with
  | (.error err, w1) => (.error err, w1)
  | (.ok insertResult, w1) =>
    if insertResult.truthy then (.ok (some ⟨200, .json [("success", .bool true)]⟩), w1)
    else (.ok (some ⟨500, .json [("success", .bool false)]⟩), w1)

/-- The route `router.post("/update-name-demotable")`. -/
def updateNameDemotableRoute (oldName newName : Val) : Handler := fun w =>
  match callService "updateNameDemotable" (updateNameDemotable oldName newName) w with
  | (.error err, w1) => (.error err, w1)
  | (.ok updateResult, w1) =>
    if updateResult.truthy then (.ok (some ⟨200, .json [("success", .bool true)]⟩), w1)
    else (.ok (some ⟨500, .json [("success", .bool false)]⟩), w1)

/-- The route `router.get('/count-demotable')`. -/
def countDemotableRoute : Handler := fun w =>
  match callService "countDemotable" countDemotable w with
  | (.error err, w1) => (.error err, w1)
  | (.ok tableCount, w1) =>
    if tableCount.geZero then
      (.ok (some ⟨200, .json [("success", .bool true), ("count", tableCount)]⟩), w1)
    else
      (.ok (some ⟨500, .json [("success", .bool false), ("count", tableCount)]⟩), w1)

/-- A DEMOTABLE with two rows named alice and one named carol. -/
def dbDemo : DB :=
  { locations := [], touristAttractions1 := [], touristAttractions2 := [],
    experienceOffered := []
    demotable := [⟨.num 1, .str "alice"⟩, ⟨.num 2, .str "carol"⟩, ⟨.num 3, .str "alice"⟩]
    nextAttractionID := 1 }

/-! ## Client script `public/scripts.js`

The page is the values the handlers read from the DOM; the network is a
parameter: what the one `fetch` call of a handler comes to.  A handler is modelled
by the sequence of effects it causes (requests, alerts, rendering), in order. -/

/-- A value in the JSON body of a request. -/
inductive Field
  | text (s : String)
  | list (xs : List String)
  deriving DecidableEq, Repr

/-- What a `fetch` call comes to: the promise rejects (network failure), or it
resolves to a response with its `ok` flag and body. -/
inductive FetchOutcome
  | rejected (err : Err)
  | response (ok : Bool) (body : Body)
  deriving DecidableEq, Repr

/-- The observable effects of the client handlers. -/
inductive ClientEvent
  | fetch (url : String) (body : List (String × Field))
  | alert (msg : String)
  | render (selectedBoxes : List String) (responseData : Body)
  | unhandledRejection (err : Err)
  deriving DecidableEq, Repr

/-- The promise returned by a call of an `async` function: the effects of the call
up to its first `await` (they happen during the call), how the promise settles,
and the effects after the first `await`. -/
structure Promise (α : Type) where
  started : List ClientEvent
  settled : Except Err α
  later : List ClientEvent

/-- A checkbox of `#experienceFilter`. -/
structure Checkbox where
  value : String
  checked : Bool
  deriving DecidableEq, Repr

/-- The input values of the page that the two handlers read. -/
structure Page where
  insertName : String
  insertDescription : String
  insertOpen : String
  insertClose : String
  insertLat : String
  insertLon : String
  chooseCat : String
  insertProv : String
  insertCity : String
  filterAttractionExperience : String
  experienceCheckboxes : List Checkbox
  deriving DecidableEq, Repr

namespace Client

/-- The function `retrieveAndSanitizeText(elementID)`, on the value of the element:
`value.toLowerCase()` (lower-casing of ASCII letters in this model). -/
def retrieveAndSanitizeText (value : String) : String :=
  String.mk (value.data.map Char.toLower)

/-- The client function `addAttraction(attraction)`: POST to `/add-attraction`, throw
when the response is not ok. -/
def addAttraction (attraction : List (String × Field)) (net : FetchOutcome) : Promise Unit :=
  { started := [.fetch "/add-attraction" attraction]
    settled :=
      match net with
      | .rejected err => .error err
      | .response ok _ => if !ok then .error "Error" else .ok ()
    later := [] }

/-- The handler `addNewAttractionSubmit()`.  Inside its `try` block `addAttraction` is
called without `await`: the call returns its promise and cannot throw, the success
alert follows, and a later rejection of the promise is handled by nobody. -/
def addNewAttractionSubmit (page : Page) (net : FetchOutcome) : List ClientEvent :=
  let attractionJson : List (String × Field) :=
    [("name", .text (retrieveAndSanitizeText page.insertName)),
     ("description", .text (retrieveAndSanitizeText page.insertDescription)),
     ("open", .text (retrieveAndSanitizeText page.insertOpen)),
     ("close", .text (retrieveAndSanitizeText page.insertClose)),
     ("lat", .text page.insertLat),
     ("long", .text page.insertLon),
     ("category", .text (retrieveAndSanitizeText page.chooseCat)),
     ("province", .text (retrieveAndSanitizeText page.insertProv)),
     ("city", .text (retrieveAndSanitizeText page.insertCity))]
  let promise := addAttraction attractionJson net
  promise.started ++ [.alert "New attraction added!"] ++ promise.later ++
    (match promise.settled with
      | .ok _ => []
      | .error err => [.unhandledRejection err])

/-- The client function `fetchProjectionExperiences(experienceJSON)`: POST to
`/project-tables`, throw when the response is not ok, else the parsed JSON body. -/
def fetchProjectionExperiences (experienceJSON : List (String × Field)) (net : FetchOutcome) :
    Promise Body :=
  { started := [.fetch "/project-tables" experienceJSON]
    settled :=
      match net with
      | .rejected err => .error err
      | .response ok body =>
        if !ok then .error "Error"
        else
          match body with
          | .json fields => .ok (.json fields)
          | .text _ => .error "SyntaxError: Unexpected token"
    later := [] }

/-- The handler `projectExperiencesCheckbox()`.  The guard tests the number of
checkboxes found on the page, `experienceCheckboxes.length`; the awaited request
sits in a `try` whose `catch` alerts. -/
def projectExperiencesCheckbox (page : Page) (net : FetchOutcome) : List ClientEvent :=
  let attractionID := page.filterAttractionExperience
  let experienceCheckboxes := page.experienceCheckboxes
  let selectedBoxes := (experienceCheckboxes.filter fun checkbox => checkbox.checked).map
    fun checkbox => checkbox.value
  let experienceJSON : List (String × Field) :=
    [("attractionID", .text attractionID), ("selectedBoxes", .list selectedBoxes)]
  if experienceCheckboxes.length = 0 then
    [.alert "Please select at least 1 attribute"]
  else
    let promise := fetchProjectionExperiences experienceJSON net
    match promise.settled with
    | .ok responseData =>
      promise.started ++ promise.later ++ [.render selectedBoxes responseData]
    | .error _ =>
      promise.started ++ promise.later ++ [.alert "Not filtered properly"]

end Client

/-- A page whose five attribute checkboxes are all unchecked. -/
def pageNoneChecked : Page :=
  { insertName := "Science World", insertDescription := "Dome", insertOpen := "10",
    insertClose := "17", insertLat := "49", insertLon := "-123", chooseCat := "Museum",
    insertProv := "BC", insertCity := "Vancouver"
    filterAttractionExperience := "1"
    experienceCheckboxes :=
      [⟨"experienceID", false⟩, ⟨"experienceName", false⟩, ⟨"experienceDesc", false⟩,
       ⟨"company", false⟩, ⟨"price", false⟩] }

/-- A database with two experiences offered at attraction 1 and one at attraction 2. -/
def dbExperience : DB :=
  { locations := [], touristAttractions1 := [], touristAttractions2 := []
    experienceOffered :=
      [⟨.num 10, .str "kayak tour", .str "two hours", .str "paddle co", .num 80, .num 1⟩,
       ⟨.num 11, .str "night walk", .str "guided", .str "lantern ltd", .num 25, .num 2⟩,
       ⟨.num 12, .str "dome show", .str "film", .str "paddle co", .num 15, .num 1⟩]
    demotable := []
    nextAttractionID := 3 }

/-! ## Shared lemmas -/

/-- The world left by `withOracleDB` around one statement when acquiring the
connection and executing the statement both succeed. -/
theorem withOracleDB_runStmt_of_ok {α : Type} (stmt : Stmt) (f : Result → Except Err α)
    (w : World) (res : Result) (db1 : DB)
    (hq : ∀ x ∈ w.sess.faults.take 2, x = none)
    (hexec : execStmt stmt w.sess.db = .ok (res, db1)) :
    withOracleDB (runStmt stmt f) w =
      (f res,
        { sess := { db := db1, faults := w.sess.faults.drop 3,
                    stmts := w.sess.stmts ++ [(stmt, w.sess.db)] },
          nextConn := w.nextConn + 1,
          life := w.life ++ [.acquired ⟨w.nextConn⟩, .invoked ⟨w.nextConn⟩,
            .finished ⟨w.nextConn⟩, .closeCalled ⟨w.nextConn⟩] }) := by
  rcases w with ⟨⟨db, faults, stmts⟩, n, life⟩
  simp only at hexec
  rcases faults with _ | ⟨a, _ | ⟨b, _ | ⟨c, rest⟩⟩⟩ <;>
    simp at hq <;>
    simp [withOracleDB, runStmt, Connection.execute, popFault, closeQuietly, hexec, hq]

/-- The outcome of `withOracleDB` around one statement when acquiring the
connection fails. -/
theorem withOracleDB_runStmt_of_acquire_fails {α : Type} (stmt : Stmt)
    (f : Result → Except Err α) (w : World) (err : Err) (rest : List (Option Err))
    (hf : w.sess.faults = some err :: rest) :
    withOracleDB (runStmt stmt f) w =
      (.error err, { w with sess := { w.sess with faults := rest },
                            life := w.life ++ [.acquireFailed] }) := by
  rcases w with ⟨⟨db, faults, stmts⟩, n, life⟩
  simp only at hf
  subst hf
  simp [withOracleDB, popFault]

/-- The outcome of `withOracleDB` around one statement when the connection is
acquired and executing the statement throws. -/
theorem withOracleDB_runStmt_of_execute_fails {α : Type} (stmt : Stmt)
    (f : Result → Except Err α) (w : World) (err : Err) (rest : List (Option Err))
    (hf : w.sess.faults = none :: some err :: rest) :
    withOracleDB (runStmt stmt f) w =
      (.error err,
        { sess := { w.sess with faults := rest.tail },
          nextConn := w.nextConn + 1,
          life := w.life ++ [.acquired ⟨w.nextConn⟩, .invoked ⟨w.nextConn⟩,
            .finished ⟨w.nextConn⟩, .closeCalled ⟨w.nextConn⟩] }) := by
  rcases w with ⟨⟨db, faults, stmts⟩, n, life⟩
  simp only at hf
  subst hf
  cases rest <;> simp [withOracleDB, runStmt, Connection.execute, popFault, closeQuietly]

/-- The nested-loop join is the filtered product of the two tables, projected. -/
theorem selectAttractionsRows_eq_product (db : DB) (province city : Val) :
    selectAttractionsRows db province city =
      ((db.touristAttractions1 ×ˢ db.touristAttractions2).filter fun p =>
        decide (p.1.latitude = p.2.latitude ∧ p.1.longitude = p.2.longitude ∧
          p.1.province = province ∧ p.1.city = city)).map
        fun p => [Val.num p.2.attractionID, p.2.attractionName] := by
  unfold selectAttractionsRows
  generalize db.touristAttractions2 = l2
  induction db.touristAttractions1 with
  | nil => simp
  | cons t1 l1 ih =>
    simp only [List.flatMap_cons, ih, List.product_cons, List.filter_append, List.map_append,
      List.filter_map, List.map_map]
    congr 1

/-- Membership in the rows of the attraction query. -/
theorem mem_selectAttractionsRows (db : DB) (province city : Val) (row : List Val) :
    row ∈ selectAttractionsRows db province city ↔
      ∃ t1 ∈ db.touristAttractions1, ∃ t2 ∈ db.touristAttractions2,
        t1.latitude = t2.latitude ∧ t1.longitude = t2.longitude ∧
        t1.province = province ∧ t1.city = city ∧
        row = [Val.num t2.attractionID, t2.attractionName] := by
  unfold selectAttractionsRows
  simp only [List.mem_flatMap, List.mem_map, List.mem_filter, decide_eq_true_eq]
  constructor
  · rintro ⟨t1, h1, t2, ⟨h2, ha, hb, hc, hd⟩, rfl⟩
    exact ⟨t1, h1, t2, h2, ha, hb, hc, hd, rfl⟩
  · rintro ⟨t1, h1, t2, h2, ha, hb, hc, hd, rfl⟩
    exact ⟨t1, h1, t2, ⟨h2, ha, hb, hc, hd⟩, rfl⟩

/-- The outcome of `getAttractions` when the connection is acquired and the query runs. -/
theorem getAttractions_of_query_ok (province city : Val) (w : World)
    (hq : ∀ x ∈ w.sess.faults.take 2, x = none) :
    getAttractions province city w =
      (.ok (.rows (selectAttractionsRows w.sess.db province city)),
        { sess := { db := w.sess.db, faults := w.sess.faults.drop 3,
                    stmts := w.sess.stmts ++ [(.selectAttractions province city, w.sess.db)] },
          nextConn := w.nextConn + 1,
          life := w.life ++ [.acquired ⟨w.nextConn⟩, .invoked ⟨w.nextConn⟩,
            .finished ⟨w.nextConn⟩, .closeCalled ⟨w.nextConn⟩] }) := by
  unfold getAttractions Task.catch
  rw [withOracleDB_runStmt_of_ok (.selectAttractions province city) _ w _ _ hq rfl]


/-- Indexing just past a prefix reads the next element. -/
theorem getD_append_cons (pre suf : List String) (a d : String) :
    (pre ++ a :: suf).getD pre.length d = a := by
  induction pre with
  | nil => rfl
  | cons x xs ih => simpa using ih

/-- One loop iteration at the index that follows `pre`. -/
theorem selectorStep_at (pre suf : List String) (a acc : String) :
    selectorStep (pre ++ a :: suf) acc pre.length
      = if suf = [] then acc ++ a else acc ++ a ++ ", " := by
  unfold selectorStep
  rw [getD_append_cons]
  cases suf <;> simp

/-- The remaining iterations of the loop, in terms of the library's join. -/
theorem selectorLoop_eq_go : ∀ (suf pre : List String) (a acc : String),
    (List.range' pre.length (suf.length + 1)).foldl (selectorStep (pre ++ a :: suf)) acc
      = String.intercalate.go (acc ++ a) ", " suf := by
  intro suf
  induction suf with
  | nil =>
    intro pre a acc
    rw [List.length_nil, List.range'_succ, List.foldl_cons, selectorStep_at]
    simp [String.intercalate.go]
  | cons b r ih =>
    intro pre a acc
    have h := ih (pre ++ [a]) b (acc ++ a ++ ", ")
    simp only [List.length_append, List.length_cons, List.length_nil, List.append_assoc,
      List.singleton_append, Nat.zero_add] at h
    rw [List.length_cons, List.range'_succ, List.foldl_cons, selectorStep_at,
      String.intercalate.go, ← h]
    simp

/-- The loop builds the `', '`-separated join of `toSelect`. -/
theorem parsedSelectorString_eq (toSelect : List String) :
    parsedSelectorString toSelect = ", ".intercalate toSelect := by
  cases toSelect with
  | nil => rfl
  | cons a suf =>
    have h := selectorLoop_eq_go suf [] a ""
    simp only [List.length_nil, List.nil_append] at h
    rw [parsedSelectorString, List.range_eq_range', List.length_cons, h, String.intercalate]
    simp

/-- The method `.catch` keeps the world and maps a thrown error through the handler. -/
theorem Task.catch_eq {α : Type} (t : Task α) (handler : Err → α) (w : World) :
    Task.catch t handler w =
      ((match (t w).1 with
        | .ok v => .ok v
        | .error err => .ok (handler err)), (t w).2) := by
  unfold Task.catch
  generalize t w = x
  rcases x with ⟨_ | _, _⟩ <;> rfl

/-- A wrapped statement with a `.catch` handler never raises, and either leaves the
database and the statement log alone and resolves to the handler's value, or
applies the statement and logs it. -/
theorem guarded_cases {α : Type} (stmt : Stmt) (f : Result → Except Err α)
    (handler : Err → α) (w : World) :
    (∃ err, (Task.catch (withOracleDB (runStmt stmt f)) handler w).1 = .ok (handler err) ∧
      (Task.catch (withOracleDB (runStmt stmt f)) handler w).2.sess.db = w.sess.db ∧
      (Task.catch (withOracleDB (runStmt stmt f)) handler w).2.sess.stmts = w.sess.stmts) ∨
    (∃ res db1, execStmt stmt w.sess.db = .ok (res, db1) ∧
      (Task.catch (withOracleDB (runStmt stmt f)) handler w).1 =
        (match f res with
          | .ok v => .ok v
          | .error err => .ok (handler err)) ∧
      (Task.catch (withOracleDB (runStmt stmt f)) handler w).2.sess.db = db1 ∧
      (Task.catch (withOracleDB (runStmt stmt f)) handler w).2.sess.stmts =
        w.sess.stmts ++ [(stmt, w.sess.db)]) := by
  rw [Task.catch_eq]
  by_cases hq : ∀ x ∈ w.sess.faults.take 2, x = none
  · cases hexec : execStmt stmt w.sess.db with
    | ok p =>
      right
      refine ⟨p.1, p.2, rfl, ?_⟩
      rw [withOracleDB_runStmt_of_ok stmt f w p.1 p.2 hq hexec]
      exact ⟨rfl, rfl, rfl⟩
    | error e =>
      left
      refine ⟨e, ?_⟩
      rcases w with ⟨⟨db, faults, stmts⟩, n, life⟩
      simp only at hexec
      rcases faults with _ | ⟨a, _ | ⟨b, _ | ⟨c, rest⟩⟩⟩ <;>
        simp at hq <;>
        simp [withOracleDB, runStmt, Connection.execute, popFault, closeQuietly, hexec, hq]
  · left
    rcases hf : w.sess.faults with _ | ⟨a, _ | ⟨b, rest⟩⟩
    · simp [hf] at hq
    · cases a with
      | none => simp [hf] at hq
      | some e =>
        refine ⟨e, ?_⟩
        rw [withOracleDB_runStmt_of_acquire_fails stmt f w e [] hf]
        exact ⟨rfl, rfl, rfl⟩
    · cases a with
      | some e =>
        refine ⟨e, ?_⟩
        rw [withOracleDB_runStmt_of_acquire_fails stmt f w e _ hf]
        exact ⟨rfl, rfl, rfl⟩
      | none =>
        cases b with
        | none => simp [hf] at hq
        | some e =>
          refine ⟨e, ?_⟩
          rw [withOracleDB_runStmt_of_execute_fails stmt f w e _ hf]
          exact ⟨rfl, rfl, rfl⟩

/-- The function `checkTouristAttraction1` never raises, resolves to a boolean and leaves the
database alone. -/
theorem checkTouristAttraction1_spec (lat long province city : Val) (w : World) :
    ∃ b, (checkTouristAttraction1 lat long province city w).1 = .ok (.bool b) ∧
      (checkTouristAttraction1 lat long province city w).2.sess.db = w.sess.db := by
  unfold checkTouristAttraction1
  rcases guarded_cases (.selectTouristAttractions1 lat long province city)
      (fun result => Except.ok (JSVal.bool (decide (result.rows.length > 0)))) (fun _ => JSVal.bool false) w with
    ⟨_, h1, h2, _⟩ | ⟨res, db1, hexec, h1, h2, _⟩
  · exact ⟨false, h1, h2⟩
  · simp only [execStmt, Except.ok.injEq, Prod.mk.injEq] at hexec
    exact ⟨_, h1, by rw [h2, ← hexec.2]⟩

/-- The function `checkLocation` never raises, resolves to a boolean and leaves the database alone. -/
theorem checkLocation_spec (province city : Val) (w : World) :
    ∃ b, (checkLocation province city w).1 = .ok (.bool b) ∧
      (checkLocation province city w).2.sess.db = w.sess.db := by
  unfold checkLocation
  rcases guarded_cases (.selectLocations province city)
      (fun result => Except.ok (JSVal.bool (decide (result.rows.length > 0)))) (fun _ => JSVal.bool false) w with
    ⟨_, h1, h2, _⟩ | ⟨res, db1, hexec, h1, h2, _⟩
  · exact ⟨false, h1, h2⟩
  · simp only [execStmt, Except.ok.injEq, Prod.mk.injEq] at hexec
    exact ⟨_, h1, by rw [h2, ← hexec.2]⟩

/-- The function `addLocation` never raises and does not touch TouristAttractions2. -/
theorem addLocation_spec (province city : Val) (w : World) :
    ∃ v, (addLocation province city w).1 = .ok v ∧
      (addLocation province city w).2.sess.db.touristAttractions2 =
        w.sess.db.touristAttractions2 ∧
      (addLocation province city w).2.sess.db.nextAttractionID = w.sess.db.nextAttractionID := by
  unfold addLocation
  rcases guarded_cases (.insertLocations province city)
      (fun result => Except.ok (rowsAffectedFlag result)) (fun _ => JSVal.bool false) w with
    ⟨_, h1, h2, _⟩ | ⟨res, db1, hexec, h1, h2, _⟩
  · exact ⟨_, h1, by rw [h2], by rw [h2]⟩
  · simp only [execStmt, Except.ok.injEq, Prod.mk.injEq] at hexec
    exact ⟨_, h1, by rw [h2, ← hexec.2], by rw [h2, ← hexec.2]⟩

/-- The function `addTouristAttractions1` never raises and does not touch TouristAttractions2. -/
theorem addTouristAttractions1_spec (lat long province city : Val) (w : World) :
    ∃ v, (addTouristAttractions1 lat long province city w).1 = .ok v ∧
      (addTouristAttractions1 lat long province city w).2.sess.db.touristAttractions2 =
        w.sess.db.touristAttractions2 ∧
      (addTouristAttractions1 lat long province city w).2.sess.db.nextAttractionID =
        w.sess.db.nextAttractionID := by
  obtain ⟨b, hb1, hb2⟩ := checkLocation_spec province city w
  have hcheck : checkLocation province city w
      = (.ok (.bool b), (checkLocation province city w).2) := Prod.ext hb1 rfl
  -- the world in which the insert statement runs
  have hfinal : ∀ w2 : World,
      w2.sess.db.touristAttractions2 = w.sess.db.touristAttractions2 →
      w2.sess.db.nextAttractionID = w.sess.db.nextAttractionID →
      ∃ v, (Task.catch
          (withOracleDB (runStmt (.insertTouristAttractions1 lat long province city)
            fun result => .ok (rowsAffectedFlag result)))
          (fun _ => .bool false) w2).1 = .ok v ∧
        (Task.catch
          (withOracleDB (runStmt (.insertTouristAttractions1 lat long province city)
            fun result => .ok (rowsAffectedFlag result)))
          (fun _ => .bool false) w2).2.sess.db.touristAttractions2 =
            w.sess.db.touristAttractions2 ∧
        (Task.catch
          (withOracleDB (runStmt (.insertTouristAttractions1 lat long province city)
            fun result => .ok (rowsAffectedFlag result)))
          (fun _ => .bool false) w2).2.sess.db.nextAttractionID =
            w.sess.db.nextAttractionID := by
    intro w2 e1 e2
    rcases guarded_cases (.insertTouristAttractions1 lat long province city)
        (fun result => Except.ok (rowsAffectedFlag result)) (fun _ => JSVal.bool false) w2 with
      ⟨_, h1, h2, _⟩ | ⟨res, db1, hexec, h1, h2, _⟩
    · exact ⟨_, h1, by rw [h2, e1], by rw [h2, e2]⟩
    · simp only [execStmt, Except.ok.injEq, Prod.mk.injEq] at hexec
      exact ⟨_, h1, by rw [h2, ← hexec.2, ← e1], by rw [h2, ← hexec.2, ← e2]⟩
  unfold addTouristAttractions1
  rw [hcheck]
  cases b with
  | true =>
    simp only [JSVal.truthy, Bool.not_true, Bool.false_eq_true, if_false]
    exact hfinal _ (by rw [hb2]) (by rw [hb2])
  | false =>
    obtain ⟨v, hv1, hv2, hv3⟩ := addLocation_spec province city (checkLocation province city w).2
    have hadd : addLocation province city (checkLocation province city w).2
        = (.ok v, (addLocation province city (checkLocation province city w).2).2) :=
      Prod.ext hv1 rfl
    simp only [JSVal.truthy, Bool.not_false, if_true]
    rw [hadd]
    exact hfinal _ (by rw [hv2, hb2]) (by rw [hv3, hb2])

/-- The final statement of `addAttraction`, from any world: it never raises, and it
resolves to `true` having appended the new row, or to `false` having appended none. -/
theorem insertTouristAttractions2_spec (name description open_ close lat long category : Val)
    (w2 : World) :
    ∃ b : Bool,
      (Task.catch
        (withOracleDB (runStmt
          (.insertTouristAttractions2 name description category open_ close lat long)
          fun result => .ok (rowsAffectedFlag result)))
        (fun _ => .bool false) w2).1 = .ok (.bool b) ∧
      (Task.catch
        (withOracleDB (runStmt
          (.insertTouristAttractions2 name description category open_ close lat long)
          fun result => .ok (rowsAffectedFlag result)))
        (fun _ => .bool false) w2).2.sess.db.touristAttractions2 =
        (if b then w2.sess.db.touristAttractions2 ++
            [⟨w2.sess.db.nextAttractionID, name, description, category, open_, close, lat, long⟩]
          else w2.sess.db.touristAttractions2) := by
  rcases guarded_cases (.insertTouristAttractions2 name description category open_ close lat long)
      (fun result => Except.ok (rowsAffectedFlag result)) (fun _ => JSVal.bool false) w2 with
    ⟨_, h1, h2, _⟩ | ⟨res, db1, hexec, h1, h2, _⟩
  · exact ⟨false, h1, by rw [h2]; rfl⟩
  · simp only [execStmt, Except.ok.injEq, Prod.mk.injEq] at hexec
    refine ⟨true, ?_, ?_⟩
    · rw [h1, ← hexec.1]; rfl
    · rw [h2, ← hexec.2]; rfl

/-- Dropping consumed driver outcomes keeps a fault-free schedule fault-free. -/
theorem calm_step (w : World) (stmt : Stmt) (hcalm : ∀ x ∈ w.sess.faults, x = none) :
    ∀ x ∈ (w.step stmt).sess.faults, x = none := by
  intro x hx
  exact hcalm x (List.mem_of_mem_drop hx)

/-- A wrapped statement in a fault-free world resolves to its mapped result. -/
theorem guarded_of_calm {α : Type} (stmt : Stmt) (f : Result → Except Err α)
    (handler : Err → α) (w : World) (res : Result) (db1 : DB) (v : α)
    (hcalm : ∀ x ∈ w.sess.faults, x = none)
    (hexec : execStmt stmt w.sess.db = .ok (res, db1)) (hf : f res = .ok v) :
    Task.catch (withOracleDB (runStmt stmt f)) handler w = (.ok v, w.step stmt) := by
  rw [Task.catch_eq,
    withOracleDB_runStmt_of_ok stmt f w res db1 (fun x hx => hcalm x (List.mem_of_mem_take hx)) hexec]
  simp [hf, World.step, execDB, hexec]

/-- The coordinate check finds a row exactly when a matching row exists. -/
theorem selectTouristAttractions1Rows_pos (db : DB) (lat long province city : Val) :
    decide ((selectTouristAttractions1Rows db lat long province city).length > 0) = true ↔
      ∃ t ∈ db.touristAttractions1, t.latitude = lat ∧ t.longitude = long ∧
        t.province = province ∧ t.city = city := by
  simp [selectTouristAttractions1Rows, List.length_pos, List.filter_eq_nil_iff]

/-- The location check finds a row exactly when a matching row exists. -/
theorem selectLocationsRows_pos (db : DB) (province city : Val) :
    decide ((selectLocationsRows db province city).length > 0) = true ↔
      ∃ l ∈ db.locations, l.province = province ∧ l.city = city := by
  simp [selectLocationsRows, List.length_pos, List.filter_eq_nil_iff]

/-- The function `checkTouristAttraction1` in a fault-free world. -/
theorem checkTouristAttraction1_of_calm (lat long province city : Val) (w : World)
    (hcalm : ∀ x ∈ w.sess.faults, x = none) :
    checkTouristAttraction1 lat long province city w =
      (.ok (.bool (decide
          ((selectTouristAttractions1Rows w.sess.db lat long province city).length > 0))),
        w.step (.selectTouristAttractions1 lat long province city)) :=
  guarded_of_calm _ _ _ w _ _ _ hcalm rfl rfl

/-- The function `checkLocation` in a fault-free world. -/
theorem checkLocation_of_calm (province city : Val) (w : World)
    (hcalm : ∀ x ∈ w.sess.faults, x = none) :
    checkLocation province city w =
      (.ok (.bool (decide ((selectLocationsRows w.sess.db province city).length > 0))),
        w.step (.selectLocations province city)) :=
  guarded_of_calm _ _ _ w _ _ _ hcalm rfl rfl

/-- The function `addLocation` in a fault-free world. -/
theorem addLocation_of_calm (province city : Val) (w : World)
    (hcalm : ∀ x ∈ w.sess.faults, x = none) :
    addLocation province city w = (.ok (.bool true), w.step (.insertLocations province city)) :=
  guarded_of_calm _ _ _ w _ _ _ hcalm rfl rfl

/-- The function `addTouristAttractions1` in a fault-free world: check, insert the location if the check found none, insert the coordinate row. -/
theorem addTouristAttractions1_of_calm (lat long province city : Val) (w : World)
    (hcalm : ∀ x ∈ w.sess.faults, x = none) :
    addTouristAttractions1 lat long province city w =
      (.ok (.bool true),
        (if decide ((selectLocationsRows w.sess.db province city).length > 0) = true then
            w.step (.selectLocations province city)
          else (w.step (.selectLocations province city)).step
            (.insertLocations province city)).step
          (.insertTouristAttractions1 lat long province city)) := by
  unfold addTouristAttractions1
  rw [checkLocation_of_calm _ _ _ hcalm]
  by_cases h : decide ((selectLocationsRows w.sess.db province city).length > 0) = true
  · rw [h, if_pos rfl]
    simp only [JSVal.truthy, Bool.not_true, Bool.false_eq_true, if_false]
    exact guarded_of_calm _ _ _ _ _ _ _ (calm_step _ _ hcalm) rfl rfl
  · rw [Bool.not_eq_true] at h
    rw [h]
    simp only [JSVal.truthy, Bool.not_false, if_true, Bool.false_eq_true, if_false]
    rw [addLocation_of_calm _ _ _ (calm_step _ _ hcalm)]
    exact guarded_of_calm _ _ _ _ _ _ _ (calm_step _ _ (calm_step _ _ hcalm)) rfl rfl

/-- The function `addAttraction` in a fault-free world: check, run `addTouristAttractions1` if the check found none, insert the detail row. -/
theorem addAttraction_of_calm
    (name description open_ close lat long category province city : Val) (w : World)
    (hcalm : ∀ x ∈ w.sess.faults, x = none) :
    addAttraction name description open_ close lat long category province city w =
      (.ok (.bool true),
        (if decide ((selectTouristAttractions1Rows w.sess.db lat long province city).length > 0)
            = true then
            w.step (.selectTouristAttractions1 lat long province city)
          else
            (addTouristAttractions1 lat long province city
              (w.step (.selectTouristAttractions1 lat long province city))).2).step
          (.insertTouristAttractions2 name description category open_ close lat long)) := by
  unfold addAttraction
  rw [checkTouristAttraction1_of_calm _ _ _ _ _ hcalm]
  by_cases h : decide
      ((selectTouristAttractions1Rows w.sess.db lat long province city).length > 0) = true
  · rw [h, if_pos rfl]
    simp only [JSVal.truthy, Bool.not_true, Bool.false_eq_true, if_false]
    exact guarded_of_calm _ _ _ _ _ _ _ (calm_step _ _ hcalm) rfl rfl
  · rw [Bool.not_eq_true] at h
    rw [h]
    simp only [JSVal.truthy, Bool.not_false, if_true, Bool.false_eq_true, if_false]
    rw [addTouristAttractions1_of_calm _ _ _ _ _ (calm_step _ _ hcalm)]
    simp only
    refine guarded_of_calm _ _ _ _ _ _ _ ?_ rfl rfl
    split
    · exact calm_step _ _ (calm_step _ _ (calm_step _ _ hcalm))
    · exact calm_step _ _ (calm_step _ _ (calm_step _ _ (calm_step _ _ hcalm)))

/-- A wrapped statement whose connection is acquired and whose execution succeeds
resolves to its mapped result, whatever the close call does. -/
theorem guarded_of_ok {α : Type} (stmt : Stmt) (f : Result → Except Err α)
    (handler : Err → α) (w : World) (res : Result) (db1 : DB) (v : α)
    (hq : ∀ x ∈ w.sess.faults.take 2, x = none)
    (hexec : execStmt stmt w.sess.db = .ok (res, db1)) (hf : f res = .ok v) :
    Task.catch (withOracleDB (runStmt stmt f)) handler w =
      (.ok v,
        { sess := { db := db1, faults := w.sess.faults.drop 3,
                    stmts := w.sess.stmts ++ [(stmt, w.sess.db)] },
          nextConn := w.nextConn + 1,
          life := w.life ++ [.acquired ⟨w.nextConn⟩, .invoked ⟨w.nextConn⟩,
            .finished ⟨w.nextConn⟩, .closeCalled ⟨w.nextConn⟩] }) := by
  rw [Task.catch_eq, withOracleDB_runStmt_of_ok stmt f w res db1 hq hexec]
  simp [hf]

/-- The flag `rowsAffected && rowsAffected > 0` is truthy exactly for a positive count. -/
theorem rowsAffectedFlag_truthy (n : Nat) :
    (rowsAffectedFlag ⟨[], [], some n⟩).truthy = true ↔ 0 < n := by
  cases n <;> simp [rowsAffectedFlag, JSVal.truthy]

/-- The outcome of `updateNameDemotable` when the connection is acquired and the
statement is executed. -/
theorem updateNameDemotable_of_ok (oldName newName : Val) (w : World)
    (hq : ∀ x ∈ w.sess.faults.take 2, x = none) :
    updateNameDemotable oldName newName w =
      (.ok (rowsAffectedFlag
          ⟨[], [], some (w.sess.db.demotable.filter fun r => decide (r.name = oldName)).length⟩),
        { sess := { db := { w.sess.db with demotable := w.sess.db.demotable.map fun r =>
                        if r.name = oldName then { r with name := newName } else r },
                    faults := w.sess.faults.drop 3,
                    stmts := w.sess.stmts ++ [(.updateDemotable newName oldName, w.sess.db)] },
          nextConn := w.nextConn + 1,
          life := w.life ++ [.acquired ⟨w.nextConn⟩, .invoked ⟨w.nextConn⟩,
            .finished ⟨w.nextConn⟩, .closeCalled ⟨w.nextConn⟩] }) :=
  guarded_of_ok _ _ _ w _ _ _ hq rfl rfl

/-- The outcome of `countDemotable` when the connection is acquired and the query runs. -/
theorem countDemotable_of_ok (w : World) (hq : ∀ x ∈ w.sess.faults.take 2, x = none) :
    countDemotable w =
      (.ok (.num w.sess.db.demotable.length),
        { sess := { db := w.sess.db, faults := w.sess.faults.drop 3,
                    stmts := w.sess.stmts ++ [(.countDemotable, w.sess.db)] },
          nextConn := w.nextConn + 1,
          life := w.life ++ [.acquired ⟨w.nextConn⟩, .invoked ⟨w.nextConn⟩,
            .finished ⟨w.nextConn⟩, .closeCalled ⟨w.nextConn⟩] }) :=
  guarded_of_ok _ _ _ w _ _ _ hq rfl rfl

/-- For every outcome of the driver calls `countDemotable` resolves to a number: -1
when acquiring or executing fails, the row count otherwise; the database is unchanged. -/
theorem countDemotable_cases (w : World) :
    ∃ n : Int, (countDemotable w).1 = .ok (.num n) ∧
      (match w.sess.faults with
        | some _ :: _ => n = -1
        | none :: some _ :: _ => n = -1
        | _ => n = w.sess.db.demotable.length) ∧
      (countDemotable w).2.sess.db = w.sess.db := by
  rcases hf : w.sess.faults with _ | ⟨a, _ | ⟨b, rest⟩⟩
  · exact ⟨_, by rw [countDemotable_of_ok w (by simp [hf])], rfl,
      by rw [countDemotable_of_ok w (by simp [hf])]⟩
  · cases a with
    | none =>
      exact ⟨_, by rw [countDemotable_of_ok w (by simp [hf])], rfl,
        by rw [countDemotable_of_ok w (by simp [hf])]⟩
    | some e =>
      refine ⟨-1, ?_, rfl, ?_⟩ <;>
      · unfold countDemotable
        rw [Task.catch_eq, withOracleDB_runStmt_of_acquire_fails _ _ w e [] hf]
  · cases a with
    | some e =>
      refine ⟨-1, ?_, rfl, ?_⟩ <;>
      · unfold countDemotable
        rw [Task.catch_eq, withOracleDB_runStmt_of_acquire_fails _ _ w e _ hf]
    | none =>
      cases b with
      | some e =>
        refine ⟨-1, ?_, rfl, ?_⟩ <;>
        · unfold countDemotable
          rw [Task.catch_eq, withOracleDB_runStmt_of_execute_fails _ _ w e _ hf]
      | none =>
        exact ⟨_, by rw [countDemotable_of_ok w (by simp [hf])], rfl,
          by rw [countDemotable_of_ok w (by simp [hf])]⟩

/-- For every outcome of the driver calls `insertDemotable` resolves to `false` with
the database unchanged, or to `true` with the row appended to DEMOTABLE. -/
theorem insertDemotable_cases (id name : Val) (w : World) :
    ((insertDemotable id name w).1 = .ok (.bool false) ∧
      (insertDemotable id name w).2.sess.db = w.sess.db) ∨
    ((insertDemotable id name w).1 = .ok (.bool true) ∧
      (insertDemotable id name w).2.sess.db =
        { w.sess.db with demotable := w.sess.db.demotable ++ [⟨id, name⟩] }) := by
  unfold insertDemotable
  rcases guarded_cases (.insertDemotable id name)
      (fun result => Except.ok (rowsAffectedFlag result)) (fun _ => JSVal.bool false) w with
    ⟨_, h1, h2, _⟩ | ⟨res, db1, hexec, h1, h2, _⟩
  · exact Or.inl ⟨h1, h2⟩
  · simp only [execStmt, Except.ok.injEq, Prod.mk.injEq] at hexec
    refine Or.inr ⟨?_, ?_⟩
    · rw [h1, ← hexec.1]; rfl
    · rw [h2, ← hexec.2]

/-- After a fault-free `addAttraction` the schedule is still fault-free, the coordinate
row is in TouristAttractions1 and the detail row is the last row of TouristAttractions2. -/
theorem addAttraction_calm_post
    (name description open_ close lat long category province city : Val) (w : World)
    (hcalm : ∀ x ∈ w.sess.faults, x = none) :
    (∀ x ∈ (addAttraction name description open_ close lat long category province city w).2.sess.faults,
      x = none) ∧
    (∃ t ∈ (addAttraction name description open_ close lat long category province city w).2.sess.db.touristAttractions1,
      t.latitude = lat ∧ t.longitude = long ∧ t.province = province ∧ t.city = city) ∧
    (addAttraction name description open_ close lat long category province city w).2.sess.db.touristAttractions2
      = w.sess.db.touristAttractions2 ++
        [⟨w.sess.db.nextAttractionID, name, description, category, open_, close, lat, long⟩] := by
  rw [addAttraction_of_calm _ _ _ _ _ _ _ _ _ w hcalm]
  by_cases hfound : decide
      ((selectTouristAttractions1Rows w.sess.db lat long province city).length > 0) = true
  · rw [if_pos hfound]
    refine ⟨calm_step _ _ (calm_step _ _ hcalm), ?_, rfl⟩
    exact (selectTouristAttractions1Rows_pos _ _ _ _ _).1 hfound
  · rw [if_neg hfound, addTouristAttractions1_of_calm _ _ _ _ _ (calm_step _ _ hcalm)]
    by_cases hloc : decide ((selectLocationsRows
        (w.step (.selectTouristAttractions1 lat long province city)).sess.db
        province city).length > 0) = true
    · rw [if_pos hloc]
      refine ⟨calm_step _ _ (calm_step _ _ (calm_step _ _ (calm_step _ _ hcalm))), ?_, rfl⟩
      refine ⟨⟨lat, long, province, city⟩, ?_, rfl, rfl, rfl, rfl⟩
      simp [World.step, execDB, execStmt]
    · rw [if_neg hloc]
      refine ⟨calm_step _ _ (calm_step _ _ (calm_step _ _ (calm_step _ _ (calm_step _ _ hcalm)))),
        ?_, rfl⟩
      refine ⟨⟨lat, long, province, city⟩, ?_, rfl, rfl, rfl, rfl⟩
      simp [World.step, execDB, execStmt]

/-- The statement log grows by at most the one statement of a wrapped unit of work,
and by exactly that statement when the unit of work resolves. -/
theorem withOracleDB_runStmt_stmts {α : Type} (stmt : Stmt) (f : Result → Except Err α)
    (w : World) :
    ((withOracleDB (runStmt stmt f) w).2.sess.stmts = w.sess.stmts ∧
      ∃ err, (withOracleDB (runStmt stmt f) w).1 = .error err) ∨
    (withOracleDB (runStmt stmt f) w).2.sess.stmts = w.sess.stmts ++ [(stmt, w.sess.db)] := by
  by_cases hq : ∀ x ∈ w.sess.faults.take 2, x = none
  · cases hexec : execStmt stmt w.sess.db with
    | ok p =>
      right
      rw [withOracleDB_runStmt_of_ok stmt f w p.1 p.2 hq hexec]
    | error e =>
      left
      rcases w with ⟨⟨db, faults, stmts⟩, n, life⟩
      simp only at hexec
      rcases faults with _ | ⟨a, _ | ⟨b, _ | ⟨c, rest⟩⟩⟩ <;>
        simp at hq <;>
        simp [withOracleDB, runStmt, Connection.execute, popFault, closeQuietly, hexec, hq]
  · left
    rcases hf : w.sess.faults with _ | ⟨a, _ | ⟨b, rest⟩⟩
    · simp [hf] at hq
    · cases a with
      | none => simp [hf] at hq
      | some e =>
        rw [withOracleDB_runStmt_of_acquire_fails stmt f w e [] hf]
        exact ⟨rfl, e, rfl⟩
    · cases a with
      | some e =>
        rw [withOracleDB_runStmt_of_acquire_fails stmt f w e _ hf]
        exact ⟨rfl, e, rfl⟩
      | none =>
        cases b with
        | none => simp [hf] at hq
        | some e =>
          rw [withOracleDB_runStmt_of_execute_fails stmt f w e _ hf]
          exact ⟨rfl, e, rfl⟩

/-! ## The claims -/

/-- C1: when the connection is acquired and the query runs, `getAttractions(province, city)`
resolves to exactly the `[attractionID, attractionName]` rows of the pairs of a
TouristAttractions1 row and a TouristAttractions2 row with equal latitude and
longitude whose TouristAttractions1 row has the given province and city; with no
such pair it resolves to the empty sequence. The database is left unchanged. -/
theorem getAttractions_returns_join (province city : Val) (w : World)
    (hq : ∀ x ∈ w.sess.faults.take 2, x = none) :
    ∃ rs, (getAttractions province city w).1 = .ok (.rows rs) ∧
      rs = ((w.sess.db.touristAttractions1 ×ˢ w.sess.db.touristAttractions2).filter fun p =>
          decide (p.1.latitude = p.2.latitude ∧ p.1.longitude = p.2.longitude ∧
            p.1.province = province ∧ p.1.city = city)).map
          (fun p => [Val.num p.2.attractionID, p.2.attractionName]) ∧
      (∀ row, row ∈ rs ↔
        ∃ t1 ∈ w.sess.db.touristAttractions1, ∃ t2 ∈ w.sess.db.touristAttractions2,
          t1.latitude = t2.latitude ∧ t1.longitude = t2.longitude ∧
          t1.province = province ∧ t1.city = city ∧
          row = [Val.num t2.attractionID, t2.attractionName]) ∧
      ((∀ t1 ∈ w.sess.db.touristAttractions1, ∀ t2 ∈ w.sess.db.touristAttractions2,
          ¬ (t1.latitude = t2.latitude ∧ t1.longitude = t2.longitude ∧
            t1.province = province ∧ t1.city = city)) → rs = []) ∧
      (getAttractions province city w).2.sess.db = w.sess.db := by
  refine ⟨selectAttractionsRows w.sess.db province city, ?_, selectAttractionsRows_eq_product _ _ _,
    mem_selectAttractionsRows _ _ _, ?_, ?_⟩
  · rw [getAttractions_of_query_ok _ _ _ hq]
  · intro hnone
    rw [List.eq_nil_iff_forall_not_mem]
    intro row hrow
    obtain ⟨t1, h1, t2, h2, ha, hb, hc, hd, -⟩ := (mem_selectAttractionsRows _ _ _ _).1 hrow
    exact hnone t1 h1 t2 h2 ⟨ha, hb, hc, hd⟩
  · rw [getAttractions_of_query_ok _ _ _ hq]

/-- C1 at a concrete state: one matching pair, and the close call failing. -/
theorem getAttractions_returns_join_witness :
    (∀ x ∈ (worldOf dbVancouver [none, none, some "ORA-03113"]).sess.faults.take 2, x = none) ∧
    ∃ rs, (getAttractions (.str "bc") (.str "vancouver") (worldOf dbVancouver [none, none, some "ORA-03113"])).1 = .ok (.rows rs) ∧ rs = [[.num 1, .str "science world"]] := by
  refine ⟨by decide, ?_⟩
  obtain ⟨rs, h1, h2, -⟩ := getAttractions_returns_join (.str "bc") (.str "vancouver") (worldOf dbVancouver [none, none, some "ORA-03113"]) (by decide)
  exact ⟨rs, h1, by rw [h2]; decide⟩

/-- C2 (amended): when no TouristAttractions1 row has the given latitude, longitude,
province and city and no driver call fails, `addAttraction` resolves to `true`,
appends exactly one TouristAttractions1 row and exactly one TouristAttractions2 row,
appends one Locations row if no Locations row has the given province and city and
none if one exists, and changes nothing else. -/
theorem addAttraction_new_coordinates
    (name description open_ close lat long category province city : Val) (w : World)
    (hcalm : ∀ x ∈ w.sess.faults, x = none)
    (hnew : ∀ t ∈ w.sess.db.touristAttractions1,
      ¬ (t.latitude = lat ∧ t.longitude = long ∧ t.province = province ∧ t.city = city)) :
    (addAttraction name description open_ close lat long category province city w).1
      = .ok (.bool true) ∧
    (addAttraction name description open_ close lat long category province city w).2.sess.db.touristAttractions1
      = w.sess.db.touristAttractions1 ++ [⟨lat, long, province, city⟩] ∧
    (addAttraction name description open_ close lat long category province city w).2.sess.db.touristAttractions2
      = w.sess.db.touristAttractions2 ++
        [⟨w.sess.db.nextAttractionID, name, description, category, open_, close, lat, long⟩] ∧
    ((∃ l ∈ w.sess.db.locations, l.province = province ∧ l.city = city) →
      (addAttraction name description open_ close lat long category province city w).2.sess.db.locations
        = w.sess.db.locations) ∧
    ((∀ l ∈ w.sess.db.locations, ¬ (l.province = province ∧ l.city = city)) →
      (addAttraction name description open_ close lat long category province city w).2.sess.db.locations
        = w.sess.db.locations ++ [⟨province, city⟩]) ∧
    (addAttraction name description open_ close lat long category province city w).2.sess.db.experienceOffered
      = w.sess.db.experienceOffered ∧
    (addAttraction name description open_ close lat long category province city w).2.sess.db.demotable
      = w.sess.db.demotable := by
  have hnot : ¬ decide
      ((selectTouristAttractions1Rows w.sess.db lat long province city).length > 0) = true := by
    rw [selectTouristAttractions1Rows_pos]
    rintro ⟨t, ht, h⟩
    exact hnew t ht h
  rw [addAttraction_of_calm _ _ _ _ _ _ _ _ _ w hcalm, if_neg hnot,
    addTouristAttractions1_of_calm _ _ _ _ _ (calm_step _ _ hcalm)]
  by_cases hloc : ∃ l ∈ w.sess.db.locations, l.province = province ∧ l.city = city
  · have hpos : decide ((selectLocationsRows
        (w.step (.selectTouristAttractions1 lat long province city)).sess.db
        province city).length > 0) = true := by
      rw [selectLocationsRows_pos]
      exact hloc
    rw [if_pos hpos]
    refine ⟨rfl, rfl, rfl, fun _ => rfl, ?_, rfl, rfl⟩
    intro hno
    obtain ⟨l, hl, h⟩ := hloc
    exact absurd h (hno l hl)
  · have hneg : ¬ decide ((selectLocationsRows
        (w.step (.selectTouristAttractions1 lat long province city)).sess.db
        province city).length > 0) = true := by
      rw [selectLocationsRows_pos]
      exact hloc
    rw [if_neg hneg]
    exact ⟨rfl, rfl, rfl, fun h => absurd h hloc, fun _ => rfl, rfl, rfl⟩

/-- C2 at a concrete state: the empty database, where all three rows are created. -/
theorem addAttraction_new_coordinates_witness :
    (∀ x ∈ (worldOf dbEmpty []).sess.faults, x = none) ∧
    (∀ t ∈ (worldOf dbEmpty []).sess.db.touristAttractions1,
      ¬ (t.latitude = .num 49 ∧ t.longitude = .num (-123) ∧
        t.province = .str "bc" ∧ t.city = .str "vancouver")) ∧
    (addAttraction (.str "science world") (.str "dome") (.str "10") (.str "17")
        (.num 49) (.num (-123)) (.str "museum") (.str "bc") (.str "vancouver")
        (worldOf dbEmpty [])).2.sess.db.locations = [⟨.str "bc", .str "vancouver"⟩] ∧
    (addAttraction (.str "science world") (.str "dome") (.str "10") (.str "17")
        (.num 49) (.num (-123)) (.str "museum") (.str "bc") (.str "vancouver")
        (worldOf dbEmpty [])).2.sess.db.touristAttractions1
      = [⟨.num 49, .num (-123), .str "bc", .str "vancouver"⟩] := by
  have h := addAttraction_new_coordinates (.str "science world") (.str "dome") (.str "10")
    (.str "17") (.num 49) (.num (-123)) (.str "museum") (.str "bc") (.str "vancouver")
    (worldOf dbEmpty []) (by decide) (by decide)
  exact ⟨by decide, by decide, h.2.2.2.2.1 (by decide), h.2.1⟩

/-- C2 fails as stated: the coordinates are new and no driver call fails, but the
location is already in Locations, and `addAttraction` creates no Locations row. -/
theorem addAttraction_existing_location_adds_none :
    (∀ x ∈ (worldOf dbVancouver []).sess.faults, x = none) ∧
    (∀ t ∈ (worldOf dbVancouver []).sess.db.touristAttractions1,
      ¬ (t.latitude = .num 50 ∧ t.longitude = .num (-120) ∧
        t.province = .str "bc" ∧ t.city = .str "vancouver")) ∧
    (addAttraction (.str "stanley park") (.str "seawall") (.str "6") (.str "22")
        (.num 50) (.num (-120)) (.str "park") (.str "bc") (.str "vancouver")
        (worldOf dbVancouver [])).2.sess.db.locations
      = (worldOf dbVancouver []).sess.db.locations ∧
    (addAttraction (.str "stanley park") (.str "seawall") (.str "6") (.str "22")
        (.num 50) (.num (-120)) (.str "park") (.str "bc") (.str "vancouver")
        (worldOf dbVancouver [])).2.sess.db.locations.length
      ≠ (worldOf dbVancouver []).sess.db.locations.length + 1 := by
  refine ⟨by decide, by decide, by decide, by decide⟩

/-- C3: on empty tables, when the fourth `oracledb.getConnection()` (the one for the
TouristAttractions1 insert) rejects, `addTouristAttractions1` resolves to `false`,
`addAttraction` discards that value and still issues the TouristAttractions2 insert:
the statements applied are the two checks, the Locations insert and the detail insert,
the detail row is inserted into a database with no TouristAttractions1 row, and
`addAttraction` resolves to `true`.  With no failure the same call inserts the
coordinate row first. -/
theorem addAttraction_detail_insert_after_failed_parent :
    (addTouristAttractions1 (.num 49) (.num (-123)) (.str "bc") (.str "vancouver")
        (checkTouristAttraction1 (.num 49) (.num (-123)) (.str "bc") (.str "vancouver")
          (worldOf dbEmpty faultsCoordinateInsertFails)).2).1 = .ok (.bool false) ∧
    (addAttraction (.str "science world") (.str "dome") (.str "10") (.str "17")
        (.num 49) (.num (-123)) (.str "museum") (.str "bc") (.str "vancouver")
        (worldOf dbEmpty faultsCoordinateInsertFails)).1 = .ok (.bool true) ∧
    (addAttraction (.str "science world") (.str "dome") (.str "10") (.str "17")
        (.num 49) (.num (-123)) (.str "museum") (.str "bc") (.str "vancouver")
        (worldOf dbEmpty faultsCoordinateInsertFails)).2.sess.stmts =
      [(.selectTouristAttractions1 (.num 49) (.num (-123)) (.str "bc") (.str "vancouver"), dbEmpty),
       (.selectLocations (.str "bc") (.str "vancouver"), dbEmpty),
       (.insertLocations (.str "bc") (.str "vancouver"), dbEmpty),
       (.insertTouristAttractions2 (.str "science world") (.str "dome") (.str "museum")
          (.str "10") (.str "17") (.num 49) (.num (-123)),
        { dbEmpty with locations := [⟨.str "bc", .str "vancouver"⟩] })] ∧
    (addAttraction (.str "science world") (.str "dome") (.str "10") (.str "17")
        (.num 49) (.num (-123)) (.str "museum") (.str "bc") (.str "vancouver")
        (worldOf dbEmpty faultsCoordinateInsertFails)).2.sess.db =
      { dbEmpty with
        locations := [⟨.str "bc", .str "vancouver"⟩]
        touristAttractions1 := []
        touristAttractions2 := [⟨1, .str "science world", .str "dome", .str "museum",
          .str "10", .str "17", .num 49, .num (-123)⟩]
        nextAttractionID := 2 } ∧
    (.insertTouristAttractions2 (.str "science world") (.str "dome") (.str "museum")
        (.str "10") (.str "17") (.num 49) (.num (-123)),
      ({ dbEmpty with
        locations := [⟨.str "bc", .str "vancouver"⟩]
        touristAttractions1 := [⟨.num 49, .num (-123), .str "bc", .str "vancouver"⟩] } : DB)) ∈
      (addAttraction (.str "science world") (.str "dome") (.str "10") (.str "17")
        (.num 49) (.num (-123)) (.str "museum") (.str "bc") (.str "vancouver")
        (worldOf dbEmpty [])).2.sess.stmts := by
  refine ⟨rfl, rfl, by decide, by decide, by decide⟩

/-- C4: for every input and every outcome of the driver calls, `addAttraction` never
raises and resolves to a boolean: `true` exactly when the final insert added its row
to TouristAttractions2, `false` otherwise (any exception included); the
`/add-attraction` route then answers `{data: <that boolean>}`. -/
theorem addAttraction_returns_boolean
    (name description open_ close lat long category province city : Val) (w : World) :
    ∃ b : Bool,
      (addAttraction name description open_ close lat long category province city w).1
        = .ok (.bool b) ∧
      (addAttraction name description open_ close lat long category province city w).2.sess.db.touristAttractions2
        = (if b then w.sess.db.touristAttractions2 ++
            [⟨w.sess.db.nextAttractionID, name, description, category, open_, close, lat, long⟩]
          else w.sess.db.touristAttractions2) ∧
      (b = true ↔
        (addAttraction name description open_ close lat long category province city w).2.sess.db.touristAttractions2.length
          = w.sess.db.touristAttractions2.length + 1) ∧
      addAttractionRoute name description open_ close lat long category province city w
        = (.ok (some ⟨200, .json [("data", .bool b)]⟩),
            (addAttraction name description open_ close lat long category province city w).2) := by
  -- the world in which the final insert runs has the TouristAttractions2 of `w`
  have hensure : ∃ w2 : World,
      w2.sess.db.touristAttractions2 = w.sess.db.touristAttractions2 ∧
      w2.sess.db.nextAttractionID = w.sess.db.nextAttractionID ∧
      addAttraction name description open_ close lat long category province city w =
        Task.catch
          (withOracleDB (runStmt
            (.insertTouristAttractions2 name description category open_ close lat long)
            fun result => .ok (rowsAffectedFlag result)))
          (fun _ => .bool false) w2 := by
    obtain ⟨b0, hb1, hb2⟩ := checkTouristAttraction1_spec lat long province city w
    have hcheck : checkTouristAttraction1 lat long province city w
        = (.ok (.bool b0), (checkTouristAttraction1 lat long province city w).2) :=
      Prod.ext hb1 rfl
    cases b0 with
    | true =>
      refine ⟨(checkTouristAttraction1 lat long province city w).2, by rw [hb2], by rw [hb2], ?_⟩
      unfold addAttraction
      rw [hcheck]
      simp only [JSVal.truthy, Bool.not_true, Bool.false_eq_true, if_false]
    | false =>
      obtain ⟨v, hv1, hv2, hv3⟩ :=
        addTouristAttractions1_spec lat long province city
          (checkTouristAttraction1 lat long province city w).2
      have hadd : addTouristAttractions1 lat long province city
            (checkTouristAttraction1 lat long province city w).2
          = (.ok v, (addTouristAttractions1 lat long province city
              (checkTouristAttraction1 lat long province city w).2).2) :=
        Prod.ext hv1 rfl
      refine ⟨(addTouristAttractions1 lat long province city
          (checkTouristAttraction1 lat long province city w).2).2,
        by rw [hv2, hb2], by rw [hv3, hb2], ?_⟩
      unfold addAttraction
      rw [hcheck]
      simp only [JSVal.truthy, Bool.not_false, if_true]
      rw [hadd]
  obtain ⟨w2, e1, e2, hrun⟩ := hensure
  obtain ⟨b, h1, h2⟩ :=
    insertTouristAttractions2_spec name description open_ close lat long category w2
  rw [← hrun, e1, e2] at h2
  rw [← hrun] at h1
  refine ⟨b, h1, h2, ?_, ?_⟩
  · rw [h2]
    cases b <;> simp
  · unfold addAttractionRoute callService
    rw [if_pos (by decide)]
    rw [show addAttraction name description open_ close lat long category province city w
      = (.ok (.bool b), (addAttraction name description open_ close lat long category province city w).2)
      from Prod.ext h1 rfl]

/-- C5: for every unit of work, if the connection is acquired then the work is invoked
once, `close` is called exactly once on that connection and after the work has
finished (on the session the work left behind); if acquiring fails, the work is
never invoked (the outcome does not depend on it) and no close is attempted. -/
theorem withOracleDB_closes_exactly_once {α : Type} (action : Connection → Action α) (w : World) :
    let out := withOracleDB action w
    let added := out.2.life.drop w.life.length
    out.2.life = w.life ++ added ∧
    match (popFault w.sess).1 with
    | some _ =>
      (∀ c, Life.invoked c ∉ added ∧ Life.closeCalled c ∉ added) ∧
      out.2.sess = (popFault w.sess).2 ∧
      ∀ action2 : Connection → Action α, withOracleDB action2 w = out
    | none =>
      let c : Connection := ⟨w.nextConn⟩
      (∀ c2, Life.acquired c2 ∈ added ∨ Life.invoked c2 ∈ added ∨ Life.closeCalled c2 ∈ added →
        c2 = c) ∧
      added.count (Life.invoked c) = 1 ∧
      added.count (Life.closeCalled c) = 1 ∧
      (∃ before, added = before ++ [Life.closeCalled c] ∧ Life.finished c ∈ before) ∧
      out.2.sess = closeQuietly (action c (popFault w.sess).2).2 := by
  unfold withOracleDB
  rcases h : popFault w.sess with ⟨f, s1⟩
  cases f with
  | some err => simp
  | none =>
    simp only [List.drop_left, true_and]
    refine ⟨?_, by simp, by simp,
      ⟨[.acquired ⟨w.nextConn⟩, .invoked ⟨w.nextConn⟩, .finished ⟨w.nextConn⟩], rfl, by simp⟩, ?_⟩
    · intro c2 hc
      simp at hc
      exact hc
    · trivial

/-- C6: `withOracleDB(action)` has exactly the outcome of `action` (its value or its
error), or the acquisition error when no connection is obtained; the close call
takes the next driver outcome, whatever it is, without changing that outcome. -/
theorem withOracleDB_propagates_outcome {α : Type} (action : Connection → Action α) (w : World) :
    match (popFault w.sess).1 with
    | some err => (withOracleDB action w).1 = .error err
    | none =>
      (withOracleDB action w).1 = (action ⟨w.nextConn⟩ (popFault w.sess).2).1 ∧
      (withOracleDB action w).2.sess.db = (action ⟨w.nextConn⟩ (popFault w.sess).2).2.db ∧
      (withOracleDB action w).2.sess.faults = (action ⟨w.nextConn⟩ (popFault w.sess).2).2.faults.tail := by
  unfold withOracleDB
  rcases h : popFault w.sess with ⟨f, s1⟩
  cases f with
  | some err => simp
  | none =>
    simp only [closeQuietly, popFault, true_and]
    cases hf : (action ⟨w.nextConn⟩ s1).2.faults <;> simp [hf]

/-- C7: `projectExperienceAttribute` has no `.catch`: it rejects with the driver's error
when acquiring the connection fails and when the statement fails, where
`getAttractions` resolves to its default. -/
theorem projectExperienceAttribute_raises :
    (projectExperienceAttribute (.num 1) ["price"] (worldOf dbEmpty [some "ORA-12541"])).1
      = .error "ORA-12541" ∧
    (projectExperienceAttribute (.num 1) ["price"] (worldOf dbEmpty [none, some "ORA-00942"])).1
      = .error "ORA-00942" ∧
    (getAttractions (.str "bc") (.str "vancouver") (worldOf dbEmpty [some "ORA-12541"])).1
      = .ok (.rows []) := by
  refine ⟨rfl, rfl, rfl⟩

/-- C8 (amended): `getAttractions` never raises; it resolves to the empty sequence when
no connection can be acquired and when executing the query throws; in every other
case, a failing close included, it resolves to the rows of the query. -/
theorem getAttractions_swallows_failures (province city : Val) (w : World) :
    ∃ rs, (getAttractions province city w).1 = .ok (.rows rs) ∧
      match w.sess.faults with
      | some _ :: _ => rs = []
      | none :: some _ :: _ => rs = []
      | _ => rs = selectAttractionsRows w.sess.db province city := by
  rcases hf : w.sess.faults with _ | ⟨a, _ | ⟨b, rest⟩⟩
  · exact ⟨_, by rw [getAttractions_of_query_ok _ _ _ (by simp [hf])], rfl⟩
  · cases a with
    | none => exact ⟨_, by rw [getAttractions_of_query_ok _ _ _ (by simp [hf])], rfl⟩
    | some e =>
      refine ⟨[], ?_, rfl⟩
      unfold getAttractions Task.catch
      rw [withOracleDB_runStmt_of_acquire_fails _ _ w e [] hf]
  · cases a with
    | some e =>
      refine ⟨[], ?_, rfl⟩
      unfold getAttractions Task.catch
      rw [withOracleDB_runStmt_of_acquire_fails _ _ w e _ hf]
    | none =>
      cases b with
      | some e =>
        refine ⟨[], ?_, rfl⟩
        unfold getAttractions Task.catch
        rw [withOracleDB_runStmt_of_execute_fails _ _ w e _ hf]
      | none =>
        exact ⟨_, by rw [getAttractions_of_query_ok _ _ _ (by simp [hf])], rfl⟩

/-- C8 fails as stated: with one matching attraction and a close call that throws,
`getAttractions` resolves to that attraction's row, not to the empty sequence. -/
theorem getAttractions_close_failure_returns_rows :
    (getAttractions (.str "bc") (.str "vancouver")
        (worldOf dbVancouver [none, none, some "ORA-03113"])).1
      = .ok (.rows [[.num 1, .str "science world"]]) ∧
    (getAttractions (.str "bc") (.str "vancouver")
        (worldOf dbVancouver [none, none, some "ORA-03113"])).1 ≠ .ok (.rows []) := by
  constructor
  · rfl
  · rw [show (getAttractions (.str "bc") (.str "vancouver")
        (worldOf dbVancouver [none, none, some "ORA-03113"])).1
      = .ok (.rows [[.num 1, .str "science world"]]) from rfl]
    simp

/-- C9: `projectExperienceAttribute` is not among the exports of `appService.js`, so
for every request the `/project-tables` handler throws a TypeError before any
statement runs and sends no response. -/
theorem projectTablesRoute_throws (id : Val) (toSelect : List String) (w : World) :
    projectTablesRoute id toSelect w =
      (.error "TypeError: appService.projectExperienceAttribute is not a function", w) := by
  rfl

/-- C10: `projectExperienceAttribute(id, toSelect)` hands to `connection.execute` the SQL
text whose select list is the elements of `toSelect` in order, joined by `', '` with
no leading or trailing separator (empty for the empty list), inside the fixed
template, and the bind array `[id]`: the text does not depend on `id`.  That statement
is the only one the function executes, and it is logged whenever the function
resolves; for `toSelect = [price, company]` and `id = 1` it is executed and yields the
two columns of the experiences of attraction 1. -/
theorem projectExperienceAttribute_statement (id : Val) (toSelect : List String) (w : World) :
    parsedSelectorString toSelect = ", ".intercalate toSelect ∧
    parsedSelectorString [] = "" ∧
    projectQuery id toSelect =
      ("\n        SELECT " ++ ", ".intercalate toSelect ++
        " \n        FROM ExperienceOffered\n        WHERE attractionID = :id\n        ", [id]) ∧
    projectExperienceAttribute id toSelect =
      withOracleDB (runStmt
        (.selectExperience
          ("\n        SELECT " ++ ", ".intercalate toSelect ++
            " \n        FROM ExperienceOffered\n        WHERE attractionID = :id\n        ") [id])
        fun result => .ok (.result result.metaData result.rows)) ∧
    (∀ entry ∈ (projectExperienceAttribute id toSelect w).2.sess.stmts.drop w.sess.stmts.length,
      entry = (Stmt.selectExperience
        ("\n        SELECT " ++ ", ".intercalate toSelect ++
          " \n        FROM ExperienceOffered\n        WHERE attractionID = :id\n        ") [id],
        w.sess.db)) ∧
    (∀ v, (projectExperienceAttribute id toSelect w).1 = .ok v →
      (projectExperienceAttribute id toSelect w).2.sess.stmts = w.sess.stmts ++
        [(Stmt.selectExperience
          ("\n        SELECT " ++ ", ".intercalate toSelect ++
            " \n        FROM ExperienceOffered\n        WHERE attractionID = :id\n        ") [id],
          w.sess.db)]) ∧
    (projectExperienceAttribute (.num 1) ["price", "company"] (worldOf dbExperience [])).1
      = .ok (.result ["PRICE", "COMPANY"]
          [[.num 80, .str "paddle co"], [.num 15, .str "paddle co"]]) ∧
    (projectExperienceAttribute (.num 1) ["price", "company"] (worldOf dbExperience [])).2.sess.stmts
      = [(Stmt.selectExperience
          "\n        SELECT price, company \n        FROM ExperienceOffered\n        WHERE attractionID = :id\n        "
          [.num 1], dbExperience)] := by
  have hq : projectQuery id toSelect =
      ("\n        SELECT " ++ ", ".intercalate toSelect ++
        " \n        FROM ExperienceOffered\n        WHERE attractionID = :id\n        ", [id]) := by
    rw [projectQuery, parsedSelectorString_eq]
  have hfun : projectExperienceAttribute id toSelect =
      withOracleDB (runStmt
        (.selectExperience
          ("\n        SELECT " ++ ", ".intercalate toSelect ++
            " \n        FROM ExperienceOffered\n        WHERE attractionID = :id\n        ") [id])
        fun result => .ok (.result result.metaData result.rows)) := by
    rw [projectExperienceAttribute, hq]
  refine ⟨parsedSelectorString_eq toSelect, rfl, hq, hfun, ?_, ?_, rfl, rfl⟩
  · rw [hfun]
    intro entry hentry
    rcases withOracleDB_runStmt_stmts
        (.selectExperience
          ("\n        SELECT " ++ ", ".intercalate toSelect ++
            " \n        FROM ExperienceOffered\n        WHERE attractionID = :id\n        ") [id])
        (fun result => Except.ok (JSVal.result result.metaData result.rows)) w with ⟨h, -⟩ | h
    · rw [h, List.drop_length] at hentry
      cases hentry
    · rw [h, List.drop_left] at hentry
      simpa using hentry
  · intro v hv
    rw [hfun] at hv ⊢
    rcases withOracleDB_runStmt_stmts
        (.selectExperience
          ("\n        SELECT " ++ ", ".intercalate toSelect ++
            " \n        FROM ExperienceOffered\n        WHERE attractionID = :id\n        ") [id])
        (fun result => Except.ok (JSVal.result result.metaData result.rows)) w with ⟨-, e, he⟩ | h
    · rw [he] at hv
      cases hv
    · exact h

/-- C11: when the connection is acquired and the UPDATE is executed,
`updateNameDemotable(oldName, newName)` sets the name to `newName` on exactly the rows
named `oldName` (all of them), keeps every id and every other name, in place, and
leaves the other tables alone; it resolves to a truthy value exactly when some row
matched; when none matched it resolves to the falsy `0` without raising, the table is
unchanged, and the route answers HTTP 500 `{success: false}`. -/
theorem updateNameDemotable_renames_matching (oldName newName : Val) (w : World)
    (hq : ∀ x ∈ w.sess.faults.take 2, x = none) :
    ∃ v, (updateNameDemotable oldName newName w).1 = .ok v ∧
      (v.truthy = true ↔ ∃ r ∈ w.sess.db.demotable, r.name = oldName) ∧
      (updateNameDemotable oldName newName w).2.sess.db.demotable.map (fun r => r.id)
        = w.sess.db.demotable.map (fun r => r.id) ∧
      (∀ (i : Nat) (r : DemoRow), w.sess.db.demotable[i]? = some r →
        (updateNameDemotable oldName newName w).2.sess.db.demotable[i]?
          = some (DemoRow.mk r.id (if r.name = oldName then newName else r.name))) ∧
      ((∀ r ∈ w.sess.db.demotable, r.name ≠ oldName) →
        v = .num 0 ∧
        (updateNameDemotable oldName newName w).2.sess.db = w.sess.db) ∧
      (updateNameDemotable oldName newName w).2.sess.db =
        { w.sess.db with demotable := (updateNameDemotable oldName newName w).2.sess.db.demotable } ∧
      updateNameDemotableRoute oldName newName w =
        (.ok (some (if v.truthy then ⟨200, .json [("success", .bool true)]⟩
                    else ⟨500, .json [("success", .bool false)]⟩)),
          (updateNameDemotable oldName newName w).2) := by
  rw [updateNameDemotable_of_ok oldName newName w hq]
  refine ⟨_, rfl, ?_, ?_, ?_, ?_, rfl, ?_⟩
  · rw [rowsAffectedFlag_truthy, List.length_pos]
    simp [List.filter_eq_nil_iff]
  · simp only [List.map_map]
    apply List.map_congr_left
    intro r _
    by_cases h : r.name = oldName <;> simp [h]
  · intro i r hr
    simp only [List.getElem?_map, hr, Option.map_some']
    by_cases h : r.name = oldName <;> simp [h]
  · intro hno
    have hcount : (w.sess.db.demotable.filter fun r => decide (r.name = oldName)).length = 0 := by
      rw [List.length_eq_zero, List.filter_eq_nil_iff]
      intro r hr
      simpa using hno r hr
    have hmap : (w.sess.db.demotable.map fun r =>
        if r.name = oldName then { r with name := newName } else r) = w.sess.db.demotable := by
      conv_rhs => rw [← List.map_id w.sess.db.demotable]
      apply List.map_congr_left
      intro r hr
      simp [hno r hr]
    refine ⟨by rw [hcount]; rfl, ?_⟩
    simp only [hmap]
  · unfold updateNameDemotableRoute callService
    rw [if_pos (by decide), updateNameDemotable_of_ok oldName newName w hq]
    simp only
    split <;> rfl

/-- C11 at a concrete table: two rows named alice are renamed, carol is kept, and a
name that is absent gives the falsy `0`. -/
theorem updateNameDemotable_renames_matching_witness :
    (∀ x ∈ (worldOf dbDemo [none, none, some "ORA-03113"]).sess.faults.take 2, x = none) ∧
    (updateNameDemotable (.str "alice") (.str "bob")
        (worldOf dbDemo [none, none, some "ORA-03113"])).2.sess.db.demotable
      = [⟨.num 1, .str "bob"⟩, ⟨.num 2, .str "carol"⟩, ⟨.num 3, .str "bob"⟩] ∧
    (∃ v, (updateNameDemotable (.str "zed") (.str "bob")
        (worldOf dbDemo [none, none, some "ORA-03113"])).1 = .ok v ∧ v = .num 0) := by
  refine ⟨by decide, by decide, ?_⟩
  obtain ⟨v, h1, -, -, -, h5, -⟩ := updateNameDemotable_renames_matching (.str "zed") (.str "bob")
    (worldOf dbDemo [none, none, some "ORA-03113"]) (by decide)
  exact ⟨v, h1, (h5 (by decide)).1⟩

/-- C12: for every outcome of the driver calls `countDemotable` never raises and
resolves to a number: the number of rows of DEMOTABLE when the connection is acquired
and the query runs, -1 when acquiring or executing fails; the `/count-demotable` route
answers HTTP 500 `{success: false, count}` exactly when that number is negative, and
`{success: true, count}` otherwise. -/
theorem countDemotable_count_or_sentinel (w : World) :
    ∃ n : Int, (countDemotable w).1 = .ok (.num n) ∧
      (match w.sess.faults with
        | some _ :: _ => n = -1
        | none :: some _ :: _ => n = -1
        | _ => n = w.sess.db.demotable.length) ∧
      countDemotableRoute w =
        (.ok (some (if n < 0 then ⟨500, .json [("success", .bool false), ("count", .num n)]⟩
                    else ⟨200, .json [("success", .bool true), ("count", .num n)]⟩)),
          (countDemotable w).2) := by
  obtain ⟨n, h1, h2, -⟩ := countDemotable_cases w
  refine ⟨n, h1, h2, ?_⟩
  unfold countDemotableRoute callService
  rw [if_pos (by decide),
    show countDemotable w = (.ok (.num n), (countDemotable w).2) from Prod.ext h1 rfl]
  by_cases hn : n < 0
  · have : ¬ (n ≥ 0) := by omega
    simp [JSVal.geZero, hn, this]
  · have : n ≥ 0 := by omega
    simp [JSVal.geZero, hn, this]

/-- C13: counting, inserting and counting again: when both counts succeed and
`insertDemotable(id, name)` reports success (a truthy result), the first count is the
number of rows and the second count is exactly one more. -/
theorem insertDemotable_increments_count (id name : Val) (w : World)
    (hc1 : ∀ x ∈ w.sess.faults.take 2, x = none)
    (hins : ∃ v, (insertDemotable id name (countDemotable w).2).1 = .ok v ∧ v.truthy = true)
    (hc2 : ∀ x ∈ (insertDemotable id name (countDemotable w).2).2.sess.faults.take 2, x = none) :
    (countDemotable w).1 = .ok (.num w.sess.db.demotable.length) ∧
    (countDemotable (insertDemotable id name (countDemotable w).2).2).1
      = .ok (.num (w.sess.db.demotable.length + 1)) ∧
    (insertDemotable id name (countDemotable w).2).2.sess.db.demotable
      = w.sess.db.demotable ++ [⟨id, name⟩] := by
  have hdb : (countDemotable w).2.sess.db = w.sess.db := by rw [countDemotable_of_ok w hc1]
  have hgrow : (insertDemotable id name (countDemotable w).2).2.sess.db.demotable
      = w.sess.db.demotable ++ [⟨id, name⟩] := by
    obtain ⟨v, hv, ht⟩ := hins
    rcases insertDemotable_cases id name (countDemotable w).2 with ⟨h1, -⟩ | ⟨-, h2⟩
    · rw [h1] at hv
      cases hv
      simp [JSVal.truthy] at ht
    · rw [h2, hdb]
  refine ⟨by rw [countDemotable_of_ok w hc1], ?_, hgrow⟩
  rw [countDemotable_of_ok _ hc2, hgrow]
  simp

/-- C13 at the scenario of the specification: from the empty table, inserting
`{id: 1, name: "Alice"}` makes the count 1. -/
theorem insertDemotable_increments_count_witness :
    (∀ x ∈ (worldOf dbEmpty []).sess.faults.take 2, x = none) ∧
    (countDemotable (worldOf dbEmpty [])).1 = .ok (.num 0) ∧
    (insertDemotable (.num 1) (.str "Alice") (countDemotable (worldOf dbEmpty [])).2).1
      = .ok (.bool true) ∧
    (countDemotable
        (insertDemotable (.num 1) (.str "Alice") (countDemotable (worldOf dbEmpty [])).2).2).1
      = .ok (.num 1) := by
  have h := insertDemotable_increments_count (.num 1) (.str "Alice") (worldOf dbEmpty [])
    (by decide) ⟨.bool true, rfl, rfl⟩ (by decide)
  exact ⟨by decide, h.1, rfl, h.2.1⟩

/-- C14: the guard of `projectExperiencesCheckbox` tests the number of checkboxes on
the page, not the number of checked ones: the "Please select at least 1 attribute"
alert is shown exactly when the page has no checkbox at all; on a page whose five
checkboxes are all unchecked no such alert is shown and the request to
`/project-tables` is sent with an empty selection. -/
theorem projectExperiencesCheckbox_guard_counts_all_boxes (page : Page) (net : FetchOutcome) :
    (ClientEvent.alert "Please select at least 1 attribute" ∈
        Client.projectExperiencesCheckbox page net ↔ page.experienceCheckboxes = []) ∧
    ClientEvent.alert "Please select at least 1 attribute" ∉
      Client.projectExperiencesCheckbox pageNoneChecked net ∧
    ClientEvent.fetch "/project-tables"
        [("attractionID", .text "1"), ("selectedBoxes", .list [])] ∈
      Client.projectExperiencesCheckbox pageNoneChecked net := by
  have hgen : ClientEvent.alert "Please select at least 1 attribute" ∈
      Client.projectExperiencesCheckbox page net ↔ page.experienceCheckboxes = [] := by
    unfold Client.projectExperiencesCheckbox
    by_cases h : page.experienceCheckboxes = []
    · simp [h]
    · have hlen : ¬ page.experienceCheckboxes.length = 0 := by
        rwa [List.length_eq_zero]
      simp only [hlen, if_false, h, iff_false]
      cases h1 : (Client.fetchProjectionExperiences
          [("attractionID", Field.text page.filterAttractionExperience),
           ("selectedBoxes", Field.list
              ((page.experienceCheckboxes.filter fun checkbox => checkbox.checked).map
                fun checkbox => checkbox.value))] net).settled <;>
        simp [Client.fetchProjectionExperiences]
  refine ⟨hgen, ?_, ?_⟩
  · rcases net with err | ⟨ok, body⟩
    · simp [Client.projectExperiencesCheckbox, Client.fetchProjectionExperiences, pageNoneChecked]
    · cases ok <;> cases body <;> simp [Client.projectExperiencesCheckbox,
        Client.fetchProjectionExperiences, pageNoneChecked]
  · rcases net with err | ⟨ok, body⟩
    · simp [Client.projectExperiencesCheckbox, Client.fetchProjectionExperiences, pageNoneChecked]
    · cases ok <;> cases body <;> simp [Client.projectExperiencesCheckbox,
        Client.fetchProjectionExperiences, pageNoneChecked]

/-- C15: `addNewAttractionSubmit` does not await `addAttraction`: for every form input
and every outcome of the request the "New attraction added!" alert is shown and the
'failed to insert data' alert is not; when the request fails the rejection is left
unhandled. -/
theorem addNewAttractionSubmit_always_alerts_success (page : Page) (net : FetchOutcome) :
    ClientEvent.alert "New attraction added!" ∈ Client.addNewAttractionSubmit page net ∧
    ClientEvent.alert "failed to insert data" ∉ Client.addNewAttractionSubmit page net ∧
    Client.addNewAttractionSubmit pageNoneChecked (.rejected "TypeError: Failed to fetch") =
      [.fetch "/add-attraction"
          [("name", .text "science world"), ("description", .text "dome"),
           ("open", .text "10"), ("close", .text "17"), ("lat", .text "49"),
           ("long", .text "-123"), ("category", .text "museum"),
           ("province", .text "bc"), ("city", .text "vancouver")],
        .alert "New attraction added!",
        .unhandledRejection "TypeError: Failed to fetch"] ∧
    Client.addNewAttractionSubmit pageNoneChecked (.response false (.json [("data", .bool false)])) =
      [.fetch "/add-attraction"
          [("name", .text "science world"), ("description", .text "dome"),
           ("open", .text "10"), ("close", .text "17"), ("lat", .text "49"),
           ("long", .text "-123"), ("category", .text "museum"),
           ("province", .text "bc"), ("city", .text "vancouver")],
        .alert "New attraction added!",
        .unhandledRejection "Error"] := by
  refine ⟨?_, ?_, by decide, by decide⟩
  · simp [Client.addNewAttractionSubmit]
  · rcases net with err | ⟨ok, body⟩
    · simp [Client.addNewAttractionSubmit, Client.addAttraction]
    · cases ok <;> simp [Client.addNewAttractionSubmit, Client.addAttraction]

/-- C16: after one `addAttraction` call with no failing driver call, a second call with
the same latitude, longitude, province and city (any name and details, again with no
failure) adds no Locations row and no TouristAttractions1 row, and appends exactly one
TouristAttractions2 row. -/
theorem addAttraction_again_adds_only_detail
    (name description open_ close category name2 description2 open2 close2 category2 : Val)
    (lat long province city : Val) (w : World)
    (hcalm : ∀ x ∈ w.sess.faults, x = none) :
    (addAttraction name2 description2 open2 close2 lat long category2 province city
        (addAttraction name description open_ close lat long category province city w).2).1
      = .ok (.bool true) ∧
    (addAttraction name2 description2 open2 close2 lat long category2 province city
        (addAttraction name description open_ close lat long category province city w).2).2.sess.db.locations
      = (addAttraction name description open_ close lat long category province city w).2.sess.db.locations ∧
    (addAttraction name2 description2 open2 close2 lat long category2 province city
        (addAttraction name description open_ close lat long category province city w).2).2.sess.db.touristAttractions1
      = (addAttraction name description open_ close lat long category province city w).2.sess.db.touristAttractions1 ∧
    (addAttraction name2 description2 open2 close2 lat long category2 province city
        (addAttraction name description open_ close lat long category province city w).2).2.sess.db.touristAttractions2
      = (addAttraction name description open_ close lat long category province city w).2.sess.db.touristAttractions2 ++
        [⟨(addAttraction name description open_ close lat long category province city w).2.sess.db.nextAttractionID,
          name2, description2, category2, open2, close2, lat, long⟩] := by
  obtain ⟨hcalm1, hrow, -⟩ :=
    addAttraction_calm_post name description open_ close lat long category province city w hcalm
  generalize (addAttraction name description open_ close lat long category province city w).2 = w1
    at hcalm1 hrow ⊢
  have hfound : decide
      ((selectTouristAttractions1Rows w1.sess.db lat long province city).length > 0) = true :=
    (selectTouristAttractions1Rows_pos _ _ _ _ _).2 hrow
  rw [addAttraction_of_calm _ _ _ _ _ _ _ _ _ w1 hcalm1, if_pos hfound]
  exact ⟨rfl, rfl, rfl, rfl⟩

/-- C16 at a concrete state: adding twice at the same coordinates to the empty database
leaves one Locations row, one TouristAttractions1 row and two TouristAttractions2 rows. -/
theorem addAttraction_again_adds_only_detail_witness :
    (∀ x ∈ (worldOf dbEmpty []).sess.faults, x = none) ∧
    (addAttraction (.str "stanley park") (.str "seawall") (.str "6") (.str "22")
        (.num 49) (.num (-123)) (.str "park") (.str "bc") (.str "vancouver")
        (addAttraction (.str "science world") (.str "dome") (.str "10") (.str "17")
          (.num 49) (.num (-123)) (.str "museum") (.str "bc") (.str "vancouver")
          (worldOf dbEmpty [])).2).2.sess.db.locations
      = [⟨.str "bc", .str "vancouver"⟩] ∧
    (addAttraction (.str "stanley park") (.str "seawall") (.str "6") (.str "22")
        (.num 49) (.num (-123)) (.str "park") (.str "bc") (.str "vancouver")
        (addAttraction (.str "science world") (.str "dome") (.str "10") (.str "17")
          (.num 49) (.num (-123)) (.str "museum") (.str "bc") (.str "vancouver")
          (worldOf dbEmpty [])).2).2.sess.db.touristAttractions1
      = [⟨.num 49, .num (-123), .str "bc", .str "vancouver"⟩] := by
  have h := addAttraction_again_adds_only_detail (.str "science world") (.str "dome") (.str "10")
    (.str "17") (.str "museum") (.str "stanley park") (.str "seawall") (.str "6") (.str "22")
    (.str "park") (.num 49) (.num (-123)) (.str "bc") (.str "vancouver") (worldOf dbEmpty [])
    (by decide)
  exact ⟨by decide, h.2.1.trans (by decide), h.2.2.1.trans (by decide)⟩

/-- C17: after an `addAttraction` call with no failing driver call, a following
`getAttractions(province, city)` (again with no failure) resolves to a sequence that
contains the row of the new attraction, whose name is `name`. -/
theorem getAttractions_after_addAttraction
    (name description open_ close lat long category province city : Val) (w : World)
    (hcalm : ∀ x ∈ w.sess.faults, x = none) :
    ∃ rs, (getAttractions province city
        (addAttraction name description open_ close lat long category province city w).2).1
        = .ok (.rows rs) ∧
      [Val.num w.sess.db.nextAttractionID, name] ∈ rs ∧
      ∃ row ∈ rs, row[1]? = some name := by
  obtain ⟨hcalm1, ⟨t, ht, h1, h2, h3, h4⟩, hta2⟩ :=
    addAttraction_calm_post name description open_ close lat long category province city w hcalm
  generalize (addAttraction name description open_ close lat long category province city w).2 = w1
    at hcalm1 ht hta2 ⊢
  have hmem : [Val.num w.sess.db.nextAttractionID, name] ∈
      selectAttractionsRows w1.sess.db province city := by
    rw [mem_selectAttractionsRows]
    refine ⟨t, ht, ⟨w.sess.db.nextAttractionID, name, description, category, open_, close, lat, long⟩,
      ?_, h1, h2, h3, h4, rfl⟩
    rw [hta2]
    simp
  refine ⟨selectAttractionsRows w1.sess.db province city, ?_, hmem, _, hmem, rfl⟩
  rw [getAttractions_of_query_ok _ _ _ (fun x hx => hcalm1 x (List.mem_of_mem_take hx))]

/-- C17 at a concrete state: add to the empty database, then list. -/
theorem getAttractions_after_addAttraction_witness :
    (∀ x ∈ (worldOf dbEmpty []).sess.faults, x = none) ∧
    (getAttractions (.str "bc") (.str "vancouver")
        (addAttraction (.str "science world") (.str "dome") (.str "10") (.str "17")
          (.num 49) (.num (-123)) (.str "museum") (.str "bc") (.str "vancouver")
          (worldOf dbEmpty [])).2).1
      = .ok (.rows [[.num 1, .str "science world"]]) ∧
    ∃ rs, (getAttractions (.str "bc") (.str "vancouver")
        (addAttraction (.str "science world") (.str "dome") (.str "10") (.str "17")
          (.num 49) (.num (-123)) (.str "museum") (.str "bc") (.str "vancouver")
          (worldOf dbEmpty [])).2).1 = .ok (.rows rs) ∧
      [Val.num 1, .str "science world"] ∈ rs := by
  obtain ⟨rs, h1, h2, -⟩ := getAttractions_after_addAttraction (.str "science world")
    (.str "dome") (.str "10") (.str "17") (.num 49) (.num (-123)) (.str "museum") (.str "bc")
    (.str "vancouver") (worldOf dbEmpty []) (by decide)
  exact ⟨by decide, rfl, rs, h1, h2⟩

end TravelDB
